import Mathlib

/-!
Verification of gridpp: neighbourhood operator, structure functions and optimal
interpolation.

A shallow embedding of `src/api/calc_neighbourhood.cpp`, `src/api/structure.cpp`
and `src/api/oi.cpp`.

Numbers: the source computes in `float`/`double`.  The embedding is generic in a
linearly ordered field `F` (exact arithmetic); rounding, NaN and infinities are
outside the model.  The sums and differences of `int` variables that the source
computes are taken modulo `2^32` (`wrap32`); container sizes fit in an `int`.
-/

set_option autoImplicit false

namespace gridpp

/-! ## Data model -/

/-- Modelled from the spec: the constant `MV` of the missing header `gridpp.h`, the
"distinguished invalid sentinel [that] marks missing data"; gridpp uses `-999`. -/
def MV {F : Type} [LinearOrderedField F] : F := -999

/-- Modelled from the spec: `is_valid(x)` of the missing header `gridpp.h`,
"a predicate `is_valid(x)` returns false for [the invalid sentinel]". -/
def is_valid {F : Type} [LinearOrderedField F] (x : F) : Bool := decide (x ≠ MV)

/-- `vec2`: a matrix stored as a list of rows, indexed `[y][x]`. -/
abbrev vec2 (F : Type) := List (List F)

/-- `vec`: a sequence of reals. -/
abbrev vec (F : Type) := List F

/-- `ivec`: a sequence of indices. -/
abbrev ivec := List Nat

/-- Read `a[y][x]` with `int` indices; the source only reads cells that exist when
the matrix is rectangular. -/
def at2 {F : Type} [LinearOrderedField F] (a : vec2 F) (y x : Int) : F :=
  (a.getD y.toNat []).getD x.toNat 0

/-- What a call can end in besides a value: the two C++ exceptions the sources throw,
and a read outside a vector (undefined behaviour in the source). -/
inductive Error where
  | invalid_argument (msg : String)
  | runtime_error (msg : String)
  | out_of_range
deriving DecidableEq, Repr

deriving instance DecidableEq for Except

/-- A matrix is rectangular of shape `nY × nX`. -/
def Rect {F : Type} (a : vec2 F) (nY nX : Nat) : Prop :=
  a.length = nY ∧ ∀ row ∈ a, row.length = nX

/-- The value of a 32-bit `int` expression whose mathematical value is `z`: the
two's-complement representative of `z` modulo `2^32` in `[-2^31, 2^31)`. -/
def wrap32 (z : Int) : Int := (z + 2147483648) % 4294967296 - 2147483648

/-- The values `lo, lo+1, ..., hi` of a loop `for (k = lo; k <= hi; k++)`. -/
def intRange (lo hi : Int) : List Int :=
  (List.range (hi + 1 - lo).toNat).map (fun (k : Nat) => lo + (k : Int))

/-! ## `calc_neighbourhood` (src/api/calc_neighbourhood.cpp) -/

/-- The loop-carried variables of the window scan (lines 31-35). -/
structure ScanState (F : Type) where
  start : Bool
  current_max : F
  I_maxSearchArray_Y : Int
  I_maxSearchArray_X : Int
deriving DecidableEq

/-- Lines 31-35: the state before the scan. -/
def scanInit {F : Type} [LinearOrderedField F] : ScanState F := ⟨true, 0, 0, 0⟩

/-- Lines 50-68: the body of the inner loop at window cell `(yy, xx)`. -/
def scanStep {F : Type} [LinearOrderedField F] (search_array : vec2 F)
    (st : ScanState F) (yy xx : Int) : ScanState F :=
  let current_array := at2 search_array yy xx
  if !is_valid current_array then st
  else if st.start then ⟨false, current_array, yy, xx⟩
  else if current_array > st.current_max then ⟨st.start, current_array, yy, xx⟩
  else st

/-- Lines 47-70: the two nested loops over the clipped window of cell `(y, x)`; the
bounds `y - halfwidth`, `y + halfwidth`, `x - halfwidth`, `x + halfwidth` are `int`
expressions. -/
def scanWindow {F : Type} [LinearOrderedField F] (search_array : vec2 F)
    (nY nX : Int) (halfwidth : Int) (y x : Int) : ScanState F :=
  (intRange (max 0 (wrap32 (y - halfwidth))) (min (nY - 1) (wrap32 (y + halfwidth)))).foldl
    (fun st yy =>
      (intRange (max 0 (wrap32 (x - halfwidth)))
          (min (nX - 1) (wrap32 (x + halfwidth)))).foldl
        (fun st xx => scanStep search_array st yy xx) st)
    scanInit

/-- Lines 31-82: the value written to `output[y][x]`. -/
def neighbourhoodCell {F : Type} [LinearOrderedField F] (array search_array : vec2 F)
    (halfwidth : Int) (search_criteria_min search_criteria_max search_target_min : F)
    (y x : Int) : F :=
  let nY : Int := array.length
  let nX : Int := (array.getD 0 []).length
  if at2 search_array y x < search_criteria_min then at2 array y x
  else if at2 search_array y x ≥ search_criteria_max then at2 array y x
  else
    let st := scanWindow search_array nY nX halfwidth y x
    if !is_valid st.current_max then 0
    else if st.current_max < search_target_min then at2 array y x
    else at2 array st.I_maxSearchArray_Y st.I_maxSearchArray_X

/-- The function `gridpp::calc_neighbourhood`.  The three argument checks throw
`std::invalid_argument`; otherwise row `y` of the result holds the cells written by
the loop `for (x = 0; x < array[y].size(); x++)` (for a rectangular `array` that is
the whole `nY × nX` output). -/
def calc_neighbourhood {F : Type} [LinearOrderedField F] (array search_array : vec2 F)
    (halfwidth : Int)
    (search_criteria_min search_criteria_max search_target_min search_target_max : F) :
    Except Error (vec2 F) :=
  if search_criteria_min > search_criteria_max then
    .error (.invalid_argument "Search_criteria_min must be smaller than search_criteria_max")
  else if search_target_min > search_target_max then
    .error (.invalid_argument "Search_target_min must be smaller than search_target_max")
  else if halfwidth < 0 then
    .error (.invalid_argument "halfwidth must be positive")
  else
    .ok ((List.range array.length).map fun (y : Nat) =>
      (List.range (array.getD y []).length).map fun (x : Nat) =>
        neighbourhoodCell array search_array halfwidth
          search_criteria_min search_criteria_max search_target_min (y : Int) (x : Int))


/-- Read `a[y][x]` as an optional value: `none` when the cell does not exist. -/
def cell? {F : Type} (a : vec2 F) (y x : Nat) : Option F :=
  (a.get? y).bind (fun row => row.get? x)

/-- Cell `(yy, xx)` lies in the window that lines 47-48 compute for `(y, x)`, with the
bounds evaluated in `int` arithmetic. -/
def InCodeWindow (nY nX : Int) (halfwidth : Int) (y x yy xx : Int) : Prop :=
  max 0 (wrap32 (y - halfwidth)) ≤ yy ∧ yy ≤ min (nY - 1) (wrap32 (y + halfwidth)) ∧
  max 0 (wrap32 (x - halfwidth)) ≤ xx ∧ xx ≤ min (nX - 1) (wrap32 (x + halfwidth))

/-- Loop invariant of the window scan over the set `Q` of cells visited so far. -/
def ScanInv {F : Type} [LinearOrderedField F] (S : vec2 F) (Q : Int → Int → Prop)
    (st : ScanState F) : Prop :=
  (st = scanInit ∧ ∀ yy xx, Q yy xx → is_valid (at2 S yy xx) = false) ∨
  (st.start = false ∧ Q st.I_maxSearchArray_Y st.I_maxSearchArray_X ∧
    is_valid (at2 S st.I_maxSearchArray_Y st.I_maxSearchArray_X) = true ∧
    st.current_max = at2 S st.I_maxSearchArray_Y st.I_maxSearchArray_X ∧
    ∀ yy xx, Q yy xx → is_valid (at2 S yy xx) = true →
      at2 S yy xx ≤ st.current_max ∧
      ((yy < st.I_maxSearchArray_Y ∨ (yy = st.I_maxSearchArray_Y ∧ xx < st.I_maxSearchArray_X)) →
        at2 S yy xx < st.current_max))


/-! ## Points, grids and the external collaborators -/

/-- `Point`: the tuple (lat, lon, elev, laf, type). -/
structure Point (F : Type) where
  lat : F
  lon : F
  elev : F
  laf : F
  type : Nat
deriving DecidableEq

/-- Modelled from the spec: the `Grid` container of the missing header `gridpp.h`,
"`nY × nX` mesh with per-cell `lat, lon, elev, laf`". -/
structure Grid (F : Type) where
  lats : vec2 F
  lons : vec2 F
  elevs : vec2 F
  lafs : vec2 F
deriving DecidableEq

/-- Modelled from the spec: `Grid::size()` of the missing `Grid` class, the pair
`(nY, nX)` of the mesh. -/
def Grid.size {F : Type} (g : Grid F) : Nat × Nat :=
  (g.lats.length, (g.lats.getD 0 []).length)

/-- Modelled from the spec: the capabilities of the surrounding modules that the three
source files call but do not define (spec section 6): the fast great-circle distance,
the nearest-neighbour lookup of a grid, the in-domain test and the radius query of the
point index, the `libm` functions, the `std::sort` used for the top-k selection, and
two default arguments declared in the missing header `gridpp.h`: the `dist` of the
`CrossValidation` constructor and the point of `localization_distance()`. -/
structure Env (F : Type) where
  calc_distance_fast : Point F → Point F → F
  get_nearest_neighbour : Grid F → F → F → Int × Int
  in_domain : Grid F → Point F → Bool
  get_neighbours : List (Point F) → F → F → F → ivec
  exp : F → F
  log : F → F
  sqrt : F → F
  sort : List (F × Nat) → List (F × Nat)
  crossValidation_default_dist : F
  default_point : Point F

/-- Read `a[i][j]`; a read outside the vectors is undefined behaviour in the source
and ends the call with `Error.out_of_range` here. -/
def read2 {F : Type} (a : vec2 F) (i j : Int) : Except Error F :=
  if i < 0 ∨ j < 0 then .error .out_of_range
  else
    match a.get? i.toNat with
    | none => .error .out_of_range
    | some row =>
      match row.get? j.toNat with
      | none => .error .out_of_range
      | some v => .ok v

/-! ## Structure functions (src/api/structure.cpp) -/

/-- The class hierarchy under `StructureFunction`, one constructor per subclass, with
the data members of each. -/
inductive StructureFunction (F : Type) where
  | barnes (m_grid : Grid F) (mH mV mW : vec2 F) (m_min_rho : F) (m_is_spatial : Bool)
  | cressman (m_localization_distance : F) (mH mV mW : F)
  | multiple (m_structure_h m_structure_v m_structure_w : StructureFunction F)
  | crossValidation (m_localization_distance : F) (m_structure : StructureFunction F)
      (m_dist : F)
deriving DecidableEq

/-- Line 5: `default_min_rho = 0.0013`. -/
def default_min_rho {F : Type} [LinearOrderedField F] : F := 13 / 10000

/-- Lines 16-24: `StructureFunction::barnes_rho`. -/
def barnes_rho {F : Type} [LinearOrderedField F] (E : Env F) (dist length : F) : F :=
  if !is_valid length || length == 0 then 1
  else if !is_valid dist then 0
  else
    let v := dist / length
    E.exp (-(1 / 2) * v * v)

/-- Lines 25-34: `StructureFunction::cressman_rho`. -/
def cressman_rho {F : Type} [LinearOrderedField F] (dist length : F) : F :=
  if !is_valid length || length == 0 then 1
  else if !is_valid dist then 0
  else if dist ≥ length then 0
  else (length * length - dist * dist) / (length * length + dist * dist)

/-- Lines 7-12: the base-class constructor `StructureFunction(localization_distance)`;
it returns the stored `m_localization_distance`. -/
def StructureFunction.base {F : Type} [LinearOrderedField F] (localization_distance : F) :
    Except Error F :=
  if !is_valid localization_distance || localization_distance < 0 then
    .error (.invalid_argument "Structure function initizlied with invalid localization distance")
  else .ok localization_distance

/-- Lines 64-88: `BarnesStructure(h, v, w, hmax)`; `m_grid` is default-constructed. -/
def BarnesStructure.new {F : Type} [LinearOrderedField F] (E : Env F) (h v w hmax : F) :
    Except Error (StructureFunction F) :=
  if is_valid hmax && hmax < 0 then .error (.invalid_argument "hmax must be >= 0")
  else if !is_valid h || h < 0 then .error (.invalid_argument "h must be >= 0")
  else if !is_valid v || v < 0 then .error (.invalid_argument "v must be >= 0")
  else if !is_valid w || w < 0 then .error (.invalid_argument "w must be >= 0")
  else
    let m_min_rho := if is_valid hmax then E.exp ((hmax / h) ^ 2 / (-2)) else default_min_rho
    .ok (.barnes ⟨[], [], [], []⟩ [[h]] [[v]] [[w]] m_min_rho false)

/-- Lines 89-105: `BarnesStructure(grid, h, v, w, min_rho)`. -/
def BarnesStructure.newSpatial {F : Type} (grid : Grid F) (h v w : vec2 F) (min_rho : F) :
    Except Error (StructureFunction F) :=
  if h.length = 1 ∧ (h.getD 0 []).length = 1 ∧ v.length = 1 ∧ (v.getD 0 []).length = 1 ∧
      w.length = 1 ∧ (w.getD 0 []).length = 1 then
    .ok (.barnes grid h v w min_rho false)
  else if grid.size.1 ≠ h.length ∨ grid.size.1 ≠ v.length ∨ grid.size.1 ≠ w.length then
    .error (.invalid_argument "Grid size not the same as scale size")
  else if grid.size.2 ≠ (h.getD 0 []).length ∨ grid.size.2 ≠ (v.getD 0 []).length ∨
      grid.size.2 ≠ (w.getD 0 []).length then
    .error (.invalid_argument "Grid size not the same as scale size")
  else .ok (.barnes grid h v w min_rho true)

/-- Lines 190-199: `CressmanStructure(h, v, w)`. -/
def CressmanStructure.new {F : Type} [LinearOrderedField F] (h v w : F) :
    Except Error (StructureFunction F) := do
  let m_localization_distance ← StructureFunction.base h
  if !is_valid v || v < 0 then .error (.invalid_argument "v must be >= 0")
  else if !is_valid w || w < 0 then .error (.invalid_argument "w must be >= 0")
  else .ok (.cressman m_localization_distance h v w)

/-- The four `clone()` overrides (lines 58-61, 173-176, 213-216, 237-240).  Each calls a
constructor; `CrossValidation::clone` calls `CrossValidation(*m_structure)`, i.e. the
constructor of lines 219-225 with `dist` left at its default. -/
def StructureFunction.clone {F : Type} [LinearOrderedField F] (E : Env F) :
    StructureFunction F → Except Error (StructureFunction F)
  | .barnes m_grid mH mV mW m_min_rho _ => BarnesStructure.newSpatial m_grid mH mV mW m_min_rho
  | .cressman _ mH mV mW => CressmanStructure.new mH mV mW
  | .multiple sh sv sw => do
      let h ← sh.clone E
      let v ← sv.clone E
      let w ← sw.clone E
      .ok (.multiple h v w)
  | .crossValidation _ s _ => do
      let m_localization_distance ← StructureFunction.base (0 : F)
      let dist := E.crossValidation_default_dist
      if !is_valid dist || dist < 0 then
        .error (.invalid_argument "Invalid 'dist' in CrossValidation structure")
      else do
        let m_structure ← s.clone E
        .ok (.crossValidation m_localization_distance m_structure dist)

/-- Lines 38-42: `MultipleStructure(structure_h, structure_v, structure_w)`. -/
def MultipleStructure.new {F : Type} [LinearOrderedField F] (E : Env F)
    (structure_h structure_v structure_w : StructureFunction F) :
    Except Error (StructureFunction F) := do
  let h ← structure_h.clone E
  let v ← structure_v.clone E
  let w ← structure_w.clone E
  .ok (.multiple h v w)

/-- Lines 219-225: `CrossValidation(structure, dist)`. -/
def CrossValidation.new {F : Type} [LinearOrderedField F] (E : Env F)
    (structure0 : StructureFunction F) (dist : F) : Except Error (StructureFunction F) := do
  let m_localization_distance ← StructureFunction.base (0 : F)
  if !is_valid dist || dist < 0 then
    .error (.invalid_argument "Invalid 'dist' in CrossValidation structure")
  else do
    let m_structure ← structure0.clone E
    .ok (.crossValidation m_localization_distance m_structure dist)

/-- The `localization_distance(p)` overrides (lines 35-37, 43-45, 177-187, 241-243). -/
def StructureFunction.localization_distance {F : Type} [LinearOrderedField F] (E : Env F) :
    StructureFunction F → Point F → Except Error F
  | .barnes m_grid mH _ _ m_min_rho m_is_spatial, p =>
      if m_is_spatial then do
        let I := E.get_nearest_neighbour m_grid p.lat p.lon
        let h ← read2 mH I.1 I.2
        .ok (E.sqrt (-2 * E.log m_min_rho) * h)
      else do
        let h ← read2 mH 0 0
        .ok (E.sqrt (-2 * E.log m_min_rho) * h)
  | .cressman m_localization_distance _ _ _, _ => .ok m_localization_distance
  | .multiple sh _ _, p => sh.localization_distance E p
  | .crossValidation _ s _, p => s.localization_distance E p

/-- Lines 138-146 and 149-157: the product of the three Barnes factors. -/
def barnes_product {F : Type} [LinearOrderedField F] (E : Env F) (hdist h v w : F)
    (p1 p2 : Point F) : F :=
  let rho := barnes_rho E hdist h
  let rho :=
    if is_valid p1.elev && is_valid p2.elev then rho * barnes_rho E (p1.elev - p2.elev) v
    else rho
  let rho :=
    if is_valid p1.laf && is_valid p2.laf then rho * barnes_rho E (p1.laf - p2.laf) w
    else rho
  rho

/-- The `corr(p1, p2)` overrides (lines 46-57, 106-160, 200-212, 226-228).  In the
spatial Barnes branch the comparison `I[0] > mH.size()` is made after converting the
`int` to an unsigned size, so a negative index also throws. -/
def StructureFunction.corr {F : Type} [LinearOrderedField F] (E : Env F) :
    StructureFunction F → Point F → Point F → Except Error F
  | .barnes m_grid mH mV mW m_min_rho m_is_spatial, p1, p2 => do
      let hdist := E.calc_distance_fast p1 p2
      let loc ← (StructureFunction.barnes m_grid mH mV mW m_min_rho m_is_spatial
        ).localization_distance E p1
      if hdist > loc then .ok 0
      else if m_is_spatial then
        let I := E.get_nearest_neighbour m_grid p1.lat p1.lon
        if I.1 < 0 ∨ I.1 > (mH.length : Int) then .error (.runtime_error "Invalid I[0]")
        else
          match mH.get? I.1.toNat with
          | none => .error .out_of_range
          | some row =>
            if I.2 < 0 ∨ I.2 > (row.length : Int) then .error (.runtime_error "Invalid I[1]")
            else do
              let h ← read2 mH I.1 I.2
              let v ← read2 mV I.1 I.2
              let w ← read2 mW I.1 I.2
              .ok (barnes_product E hdist h v w p1 p2)
      else do
        let h ← read2 mH 0 0
        let v ← read2 mV 0 0
        let w ← read2 mW 0 0
        .ok (barnes_product E hdist h v w p1 p2)
  | .cressman _ mH mV mW, p1, p2 =>
      let hdist := E.calc_distance_fast p1 p2
      let rho := cressman_rho hdist mH
      let rho :=
        if is_valid p1.elev && is_valid p2.elev then rho * cressman_rho (p1.elev - p2.elev) mV
        else rho
      let rho :=
        if is_valid p1.laf && is_valid p2.laf then rho * cressman_rho (p1.laf - p2.laf) mW
        else rho
      .ok rho
  | .multiple sh sv sw, p1, p2 => do
      let p1_h : Point F := ⟨p1.lat, p1.lon, p1.elev, p1.laf, p1.type⟩
      let p2_h : Point F := ⟨p2.lat, p2.lon, p1.elev, p1.laf, p1.type⟩
      let p1_v : Point F := ⟨p1.lat, p1.lon, p1.elev, p1.laf, p1.type⟩
      let p2_v : Point F := ⟨p1.lat, p1.lon, p2.elev, p1.laf, p1.type⟩
      let p1_w : Point F := ⟨p1.lat, p1.lon, p1.elev, p1.laf, p1.type⟩
      let p2_w : Point F := ⟨p1.lat, p1.lon, p1.elev, p2.laf, p1.type⟩
      let corr_h ← sh.corr E p1_h p2_h
      let corr_v ← sv.corr E p1_v p2_v
      let corr_w ← sw.corr E p1_w p2_w
      .ok (corr_h * corr_v * corr_w)
  | .crossValidation _ s _, p1, p2 => s.corr E p1 p2

/-- The `corr_background(p1, p2)` of the base class (lines 13-15) and its override in
`CrossValidation` (lines 229-236). -/
def StructureFunction.corr_background {F : Type} [LinearOrderedField F] (E : Env F) :
    StructureFunction F → Point F → Point F → Except Error F
  | .crossValidation _ s m_dist, p1, p2 =>
      let hdist := E.calc_distance_fast p1 p2
      if is_valid m_dist && hdist ≤ m_dist then .ok 0
      else s.corr_background E p1 p2
  | .barnes m_grid mH mV mW m_min_rho m_is_spatial, p1, p2 =>
      (StructureFunction.barnes m_grid mH mV mW m_min_rho m_is_spatial).corr E p1 p2
  | .cressman l mH mV mW, p1, p2 => (StructureFunction.cressman l mH mV mW).corr E p1 p2
  | .multiple sh sv sw, p1, p2 => (StructureFunction.multiple sh sv sw).corr E p1 p2

/-! ## Optimal interpolation (src/api/oi.cpp) -/

/-- Modelled from the spec: the `Points` container of the missing header `gridpp.h`,
an "ordered collection of `nS` observation sites". -/
abbrev Points (F : Type) := List (Point F)

/-- Modelled from the spec: `Points::get_in_domain_indices(grid)` of the missing
`Points` class, "the index map into the original ordering" of the in-domain subset. -/
def get_in_domain_indices {F : Type} (E : Env F) (points : Points F) (grid : Grid F) : ivec :=
  (List.range points.length).filter fun (s : Nat) =>
    match points.get? s with
    | some p => E.in_domain grid p
    | none => false

/-- Modelled from the spec: `Points::get_in_domain(grid)` of the missing `Points` class,
the "projection to an in-domain subset given a Grid". -/
def get_in_domain {F : Type} (E : Env F) (points : Points F) (grid : Grid F) : Points F :=
  points.filter fun p => E.in_domain grid p

/-- Modelled from the spec: the four-argument `Point(lat, lon, elev, laf)` of the missing
header, which leaves `type` at its default. -/
def Point.mk4 {F : Type} (lat lon elev laf : F) : Point F := ⟨lat, lon, elev, laf, 0⟩

/-- Read `v[i]`; a read outside the vector is undefined behaviour in the source and ends
the call with `Error.out_of_range` here. -/
def read1 {α : Type} (v : List α) (i : Nat) : Except Error α :=
  match v.get? i with
  | none => .error .out_of_range
  | some a => .ok a

/-- Run a loop body over a list in order, stopping at the first failure. -/
def mapE {α β : Type} (f : α → Except Error β) : List α → Except Error (List β)
  | [] => .ok []
  | a :: l =>
    match f a with
    | .error e => .error e
    | .ok b =>
      match mapE f l with
      | .error e => .error e
      | .ok bs => .ok (b :: bs)

/-- Model of `arma::inv` in exact arithmetic: it throws `std::runtime_error` on a
singular matrix and returns the inverse otherwise. -/
def arma_inv {F : Type} [LinearOrderedField F] {n : Nat} (M : Matrix (Fin n) (Fin n) F) :
    Except Error (Matrix (Fin n) (Fin n) F) :=
  if M.det = 0 then .error (.runtime_error "inv(): matrix is singular")
  else .ok (M.det⁻¹ • M.adjugate)

/-- The values `optimal_interpolation` computes once per call (lines 60-85). -/
structure OISetup (F : Type) where
  indices : ivec
  points0 : Points F
  pobs0 : vec F
  pratios0 : vec F
  localizationRadius : F
  gY : vec F
deriving DecidableEq

/-- Lines 60-85.  The reads `pobs[indices[s]]`, `pratios[indices[s]]` are in range after
the size checks of lines 41-44.  Line 85 copies `pbackground` unchanged. -/
def oi_setup {F : Type} [LinearOrderedField F] (E : Env F) (bgrid : Grid F)
    (points : Points F) (pobs pratios pbackground : vec F)
    (structure0 : StructureFunction F) : Except Error (OISetup F) := do
  let indices := get_in_domain_indices E points bgrid
  let points0 := get_in_domain E points bgrid
  let pobs0 := indices.map fun s => pobs.getD s 0
  let pratios0 := indices.map fun s => pratios.getD s 0
  let localizationRadius ← structure0.localization_distance E E.default_point
  let gY := pbackground
  .ok ⟨indices, points0, pobs0, pratios0, localizationRadius, gY⟩

/-- Lines 109-117: the loop computing the gridpoint-to-observation correlations, over the
pairs `(i, lLocIndices0[i])`; it keeps `(rho, i)` when `rho > 0`. -/
def lRhos0_loop {F : Type} [LinearOrderedField F] (E : Env F)
    (structure0 : StructureFunction F) (points0 : Points F) (p2 : Point F) :
    List (Nat × Nat) → Except Error (List (F × Nat))
  | [] => .ok []
  | (i, index) :: rest =>
    match read1 points0 index with
    | .error e => .error e
    | .ok q =>
      match structure0.corr E (Point.mk4 q.lat q.lon q.elev q.laf) p2 with
      | .error e => .error e
      | .ok rho =>
        match lRhos0_loop E structure0 points0 p2 rest with
        | .error e => .error e
        | .ok tail => if rho > 0 then .ok ((rho, i) :: tail) else .ok tail

/-- Lines 119-140: the retained observations as pairs `(lLocIndices[i], lRhos(i))`. -/
def select_retained {F : Type} [LinearOrderedField F] (E : Env F) (max_points : Int)
    (lLocIndices0 : ivec) (lRhos0 : List (F × Nat)) : List (Nat × F) :=
  if max_points > 0 ∧ (lRhos0.length : Int) > max_points then
    let sorted := E.sort lRhos0
    (List.range max_points.toNat).map fun (i : Nat) =>
      let e := sorted.getD (lRhos0.length - 1 - i) (0, 0)
      (lLocIndices0.getD e.2 0, e.1)
  else
    lRhos0.map fun e => (lLocIndices0.getD e.2 0, e.1)

/-- Lines 97-140 at one gridpoint: `none` when the radius query is empty (line 98),
otherwise the retained observations. -/
def retained_at {F : Type} [LinearOrderedField F] (E : Env F)
    (structure0 : StructureFunction F) (max_points : Int) (c : OISetup F)
    (lat lon elev laf : F) : Except Error (Option (List (Nat × F))) :=
  let lLocIndices0 := E.get_neighbours c.points0 lat lon c.localizationRadius
  if lLocIndices0.length = 0 then .ok none
  else
    match lRhos0_loop E structure0 c.points0 (Point.mk4 lat lon elev laf) lLocIndices0.enum with
    | .error e => .error e
    | .ok lRhos0 => .ok (some (select_retained E max_points lLocIndices0 lRhos0))

/-- One pass of the loop of lines 158-173: the entries for retained observation `i`. -/
structure LocalRow (F : Type) where
  lObs : F
  lY : F
  lR : F
  lG : F
  lP : List F
deriving DecidableEq

/-- Lines 158-173 for one `i`. -/
def assemble_row {F : Type} [LinearOrderedField F] (E : Env F)
    (structure0 : StructureFunction F) (c : OISetup F) (retained : List (Nat × F))
    (ir : Nat × (Nat × F)) : Except Error (LocalRow F) := do
  let i := ir.1
  let index := ir.2.1
  let lObs ← read1 c.pobs0 index
  let lY ← read1 c.gY index
  let lR ← read1 c.pratios0 index
  let lG := ir.2.2
  let q1 ← read1 c.points0 index
  let p1 := Point.mk4 q1.lat q1.lon q1.elev q1.laf
  let lP ← mapE (fun (jr : Nat × (Nat × F)) => do
      let q2 ← read1 c.points0 jr.2.1
      let p2 := Point.mk4 q2.lat q2.lon q2.elev q2.laf
      if i = jr.1 then .ok (1 : F) else structure0.corr E p1 p2) retained.enum
  .ok ⟨lObs, lY, lR, lG, lP⟩

/-- Lines 174-175: `dx = lG * inv(lP + lR) * (lObs - lY)`; the result is `dx[0]`. -/
def solve_rows {F : Type} [LinearOrderedField F] (rows : List (LocalRow F)) : Except Error F := do
  let lP : Matrix (Fin rows.length) (Fin rows.length) F :=
    Matrix.of fun i j => (rows.get i).lP.getD j.val 0
  let lR : Matrix (Fin rows.length) (Fin rows.length) F :=
    Matrix.diagonal fun i => (rows.get i).lR
  let lG : Fin rows.length → F := fun i => (rows.get i).lG
  let d : Fin rows.length → F := fun i => (rows.get i).lObs - (rows.get i).lY
  let inv ← arma_inv (lP + lR)
  .ok (Matrix.dotProduct (Matrix.vecMul lG inv) d)

/-- Lines 90-176: the value written to `output[y][x]`. -/
def oi_gridpoint {F : Type} [LinearOrderedField F] (E : Env F) (bgrid : Grid F)
    (background : vec2 F) (structure0 : StructureFunction F) (max_points : Int)
    (c : OISetup F) (y x : Nat) : Except Error F :=
  let lat := at2 bgrid.lats y x
  let lon := at2 bgrid.lons y x
  let elev := at2 bgrid.elevs y x
  let laf := at2 bgrid.lafs y x
  match retained_at E structure0 max_points c lat lon elev laf with
  | .error e => .error e
  | .ok none => .ok (at2 background y x)
  | .ok (some retained) =>
    if retained.length = 0 then .ok (at2 background y x)
    else
      match mapE (assemble_row E structure0 c retained) retained.enum with
      | .error e => .error e
      | .ok rows =>
        match solve_rows rows with
        | .error e => .error e
        | .ok dx => .ok (at2 background y x + dx)

/-- The function `gridpp::optimal_interpolation` (lines 26-182).  The loops run with `x`
outermost (line 88) and fill `output[y][x]`. -/
def optimal_interpolation {F : Type} [LinearOrderedField F] (E : Env F) (bgrid : Grid F)
    (background : vec2 F) (points : Points F) (pobs pratios pbackground : vec F)
    (structure0 : StructureFunction F) (max_points : Int) : Except Error (vec2 F) :=
  if max_points < 0 then .error (.invalid_argument "max_points must be >= 0")
  else if background.length ≠ bgrid.size.1 ∨ (background.getD 0 []).length ≠ bgrid.size.2 then
    .error (.runtime_error "Input field is not the same size as the grid")
  else if pobs.length ≠ points.length then
    .error (.runtime_error "Observations and points exception mismatch")
  else if pratios.length ≠ points.length then
    .error (.runtime_error "Ci and points size mismatch")
  else
    let nY := background.length
    let nX := (background.getD 0 []).length
    match oi_setup E bgrid points pobs pratios pbackground structure0 with
    | .error e => .error e
    | .ok c =>
      match mapE (fun (x : Nat) => mapE (fun (y : Nat) =>
          oi_gridpoint E bgrid background structure0 max_points c y x) (List.range nY))
          (List.range nX) with
      | .error e => .error e
      | .ok cols =>
        .ok ((List.range nY).map fun (y : Nat) =>
          (List.range nX).map fun (x : Nat) => (cols.getD x []).getD y 0)

/-! ## A concrete instance for evaluating the definitions -/

/-- A small instance of the collaborators over `ℚ`: taxicab distance on (lat, lon) in
place of the great-circle distance, the unit square as the domain of every grid, a
linear scan for the radius query, insertion sort, rational stand-ins for the `libm`
functions, and the sentinel as the default `dist`. -/
def demoEnv : Env ℚ where
  calc_distance_fast := fun p q => |p.lat - q.lat| + |p.lon - q.lon|
  get_nearest_neighbour := fun _ _ _ => (0, 0)
  in_domain := fun _ p => decide (0 ≤ p.lat ∧ p.lat ≤ 1 ∧ 0 ≤ p.lon ∧ p.lon ≤ 1)
  get_neighbours := fun pts lat lon r =>
    (List.range pts.length).filter fun (i : Nat) =>
      match pts.get? i with
      | some p => decide (|p.lat - lat| + |p.lon - lon| ≤ r)
      | none => false
  exp := fun x => if x ≤ 0 then 1 / (1 - x) else 1 + x
  log := fun x => if 0 < x then 1 - 1 / x else 0
  sqrt := fun x => x
  sort := fun l => l.insertionSort (fun a b => a.1 ≤ b.1)
  crossValidation_default_dist := MV
  default_point := ⟨0, 0, 0, 0, 0⟩

/-- A grid of one cell at latitude 0, longitude 0. -/
def demoGrid : Grid ℚ := ⟨[[0]], [[0]], [[0]], [[0]]⟩

/-- The structure `CressmanStructure(1, 0, 0)`. -/
def demoCressman : StructureFunction ℚ := .cressman 1 1 0 0

/-! ## Predicates used in the statements -/

/-- The structure functions obtained by successful constructor calls, starting from the
scalar Barnes and the Cressman constructors and closing under `MultipleStructure` and
`CrossValidation`. -/
inductive Built {F : Type} [LinearOrderedField F] (E : Env F) : StructureFunction F → Prop
  | barnes (h v w hmax : F) (s : StructureFunction F) :
      BarnesStructure.new E h v w hmax = .ok s → Built E s
  | cressman (h v w : F) (s : StructureFunction F) :
      CressmanStructure.new h v w = .ok s → Built E s
  | multiple (sh sv sw s : StructureFunction F) :
      Built E sh → Built E sv → Built E sw →
      MultipleStructure.new E sh sv sw = .ok s → Built E s
  | crossValidation (inner : StructureFunction F) (dist : F) (s : StructureFunction F) :
      Built E inner → CrossValidation.new E inner dist = .ok s → Built E s

/-- The shape of the data members that the scalar constructors establish: every Barnes
kernel is non-spatial with `1 × 1` length fields, every Cressman kernel stores its valid,
non-negative `h` as localization distance. -/
def StructureFunction.Scalar {F : Type} [LinearOrderedField F] : StructureFunction F → Prop
  | .barnes _ mH mV mW _ m_is_spatial =>
      m_is_spatial = false ∧ ∃ h v w, mH = [[h]] ∧ mV = [[v]] ∧ mW = [[w]]
  | .cressman l mH _ _ => l = mH ∧ is_valid mH = true ∧ 0 ≤ mH
  | .multiple sh sv sw => sh.Scalar ∧ sv.Scalar ∧ sw.Scalar
  | .crossValidation _ s _ => s.Scalar

/-- The kernel that decides the horizontal factor (the structure itself, the horizontal
component of a `MultipleStructure`, the structure wrapped by a `CrossValidation`) is not
a Cressman kernel with `h = 0`, whose horizontal factor is disabled. -/
def StructureFunction.horizontal_enabled {F : Type} [LinearOrderedField F] :
    StructureFunction F → Prop
  | .barnes _ _ _ _ _ _ => True
  | .cressman _ mH _ _ => mH ≠ 0
  | .multiple sh _ _ => sh.horizontal_enabled
  | .crossValidation _ s _ => s.horizontal_enabled

/-- The assumption on the external distance that it is a horizontal distance: it depends
on the latitude and longitude of its two arguments only. -/
def Env.distance_horizontal {F : Type} (E : Env F) : Prop :=
  ∀ p q p1 q1 : Point F, p.lat = p1.lat → p.lon = p1.lon → q.lat = q1.lat → q.lon = q1.lon →
    E.calc_distance_fast p q = E.calc_distance_fast p1 q1

/-! ## `optimal_interpolation_transform` (src/api/oi.cpp, lines 184-238) -/

/-- Lines 201-208 and 229-235: the loops over `x < nX`, `y < nY` that replace every valid
value of a field by its image under `f`.  A cell of the loop range that the field
does not have is a read outside a vector. -/
def transform_field {F : Type} [LinearOrderedField F] (f : F → F) (nY nX : Nat)
    (a : vec2 F) : Except Error (vec2 F) :=
  if nY ≤ a.length ∧ ∀ row ∈ a.take nY, nX ≤ row.length then
    .ok (a.enum.map fun (yr : Nat × List F) =>
      yr.2.enum.map fun (xv : Nat × F) =>
        if yr.1 < nY ∧ xv.1 < nX ∧ is_valid xv.2 = true then f xv.2 else xv.2)
  else .error .out_of_range

/-- Lines 210-223: the loop over `s < nS` that transforms the valid values of
`pbackground` and `pobs` and fills `pratios[s] = psigma[s] * psigma[s] / bsigma / bsigma`.
It returns `(pbackground_transformed, pobs_transformed, pratios)`. -/
def transform_points {F : Type} [LinearOrderedField F] (forward : F → F) (bsigma : F)
    (nS : Nat) (pobs psigma pbackground : vec F) : Except Error (vec F × vec F × vec F) :=
  if nS ≤ pbackground.length ∧ nS ≤ pobs.length ∧ nS ≤ psigma.length then
    .ok (pbackground.enum.map (fun (sv : Nat × F) =>
          if sv.1 < nS ∧ is_valid sv.2 = true then forward sv.2 else sv.2),
        pobs.enum.map (fun (sv : Nat × F) =>
          if sv.1 < nS ∧ is_valid sv.2 = true then forward sv.2 else sv.2),
        (List.range nS).map (fun (s : Nat) =>
          psigma.getD s 0 * psigma.getD s 0 / bsigma / bsigma))
  else .error .out_of_range

/-- The function `gridpp::optimal_interpolation_transform`; the `Transform` argument is
given by its two methods `forward` and `backward`. -/
def optimal_interpolation_transform {F : Type} [LinearOrderedField F] (E : Env F)
    (bgrid : Grid F) (background : vec2 F) (bsigma : F) (points : Points F)
    (pobs psigma pbackground : vec F) (structure0 : StructureFunction F) (max_points : Int)
    (forward backward : F → F) : Except Error (vec2 F) :=
  let nY := background.length
  let nX := (background.getD 0 []).length
  let nS := points.length
  match transform_field forward nY nX background with
  | .error e => .error e
  | .ok background_transformed =>
    match transform_points forward bsigma nS pobs psigma pbackground with
    | .error e => .error e
    | .ok (pbackground_transformed, pobs_transformed, pratios) =>
      match optimal_interpolation E bgrid background_transformed points pobs_transformed
          pratios pbackground_transformed structure0 max_points with
      | .error e => .error e
      | .ok analysis => transform_field backward nY nX analysis

/-! ## Reads of `calc_neighbourhood` -/

/-- The index pairs at which lines 37-82 read `search_array` or `array` while computing
cell `(y, x)`, in program order: the criteria tests (lines 37, 42), the copy of
`array[y][x]` (lines 38, 43, 77), every window cell (line 50) and the cell of the
maximum (line 81). -/
def neighbourhoodReads {F : Type} [LinearOrderedField F] (array search_array : vec2 F)
    (halfwidth : Int) (search_criteria_min search_criteria_max search_target_min : F)
    (y x : Int) : List (Int × Int) :=
  let nY : Int := array.length
  let nX : Int := (array.getD 0 []).length
  if at2 search_array y x < search_criteria_min then [(y, x), (y, x)]
  else if at2 search_array y x ≥ search_criteria_max then [(y, x), (y, x), (y, x)]
  else
    let window :=
      (intRange (max 0 (wrap32 (y - halfwidth)))
          (min (nY - 1) (wrap32 (y + halfwidth)))).flatMap fun (yy : Int) =>
        (intRange (max 0 (wrap32 (x - halfwidth)))
            (min (nX - 1) (wrap32 (x + halfwidth)))).map fun (xx : Int) =>
          (yy, xx)
    let st := scanWindow search_array nY nX halfwidth y x
    [(y, x), (y, x)] ++ window ++
      (if !is_valid st.current_max then []
       else if st.current_max < search_target_min then [(y, x)]
       else [(st.I_maxSearchArray_Y, st.I_maxSearchArray_X)])

/-! ## More concrete instances -/

/-- The instance `demoEnv` with a nearest-neighbour lookup that answers `(2, 0)`. -/
def demoEnvRow2 : Env ℚ :=
  { demoEnv with get_nearest_neighbour := fun _ _ _ => (2, 0) }

/-- A `2 × 2` grid with cells at latitudes and longitudes 0 and 1. -/
def demoGrid2 : Grid ℚ :=
  ⟨[[0, 0], [1, 1]], [[0, 1], [0, 1]], [[0, 0], [0, 0]], [[0, 0], [0, 0]]⟩

/-- Lines 110-113: the correlation of the candidate `index` with the gridpoint `p2`. -/
def candidate_rho {F : Type} [LinearOrderedField F] (E : Env F)
    (structure0 : StructureFunction F) (points0 : Points F) (p2 : Point F) (index : Nat) :
    Except Error F :=
  match read1 points0 index with
  | .error e => .error e
  | .ok q => structure0.corr E (Point.mk4 q.lat q.lon q.elev q.laf) p2

/-- The contract of `std::sort` with the comparator `sort_pair_first` (lines 17-21): the
result is a rearrangement of the input in which the first components never decrease. -/
def Env.sort_by_first {F : Type} [LinearOrderedField F] (E : Env F) : Prop :=
  ∀ l : List (F × Nat), List.Perm (E.sort l) l ∧ List.Pairwise (fun a b => a.1 ≤ b.1) (E.sort l)

/-! ## Further assumptions and instances -/

/-- The assumption on the external distance that two points with equal latitude and
longitude are at distance 0. -/
def Env.distance_zero_on_equal {F : Type} [LinearOrderedField F] (E : Env F) : Prop :=
  ∀ p q : Point F, p.lat = q.lat → p.lon = q.lon → E.calc_distance_fast p q = 0

/-- The instance `demoEnv` with a stand-in for `sqrt` that is never negative. -/
def demoEnvSqrt : Env ℚ :=
  { demoEnv with sqrt := fun x => max x 0 }

/-- An instance of the collaborators with the given `libm` functions; the other
capabilities are trivial (distance 0 everywhere, no neighbours). -/
def libmEnv {F : Type} [LinearOrderedField F] (exp log sqrt : F → F) : Env F where
  calc_distance_fast := fun _ _ => 0
  get_nearest_neighbour := fun _ _ _ => (0, 0)
  in_domain := fun _ _ => true
  get_neighbours := fun _ _ _ _ => []
  exp := exp
  log := log
  sqrt := sqrt
  sort := fun l => l
  crossValidation_default_dist := MV
  default_point := ⟨0, 0, 0, 0, 0⟩

/-! ## Theorems -/

section
variable {F : Type} [LinearOrderedField F]
set_option linter.unusedSectionVars false


theorem foldl_intRange_inv {σ : Type} (f : σ → Int → σ) (P : Int → σ → Prop)
    (lo hi : Int) (init : σ) (h0 : P lo init)
    (hstep : ∀ k st, lo ≤ k → k ≤ hi → P k st → P (k + 1) (f st k)) :
    P (max lo (hi + 1)) ((intRange lo hi).foldl f init) := by
  unfold intRange
  have key : ∀ m : Nat, m ≤ (hi + 1 - lo).toNat →
      P (lo + m) (((List.range m).map (fun k : Nat => lo + (k : Int))).foldl f init) := by
    intro m
    induction m with
    | zero => intro _; simpa using h0
    | succ m ih =>
      intro hm
      have hm1 : m ≤ (hi + 1 - lo).toNat := Nat.le_of_succ_le hm
      have ih1 := ih hm1
      rw [List.range_succ, List.map_append, List.foldl_append]
      simp only [List.map_cons, List.map_nil, List.foldl_cons, List.foldl_nil]
      have hk : lo + (m : Int) ≤ hi := by omega
      have := hstep (lo + m) _ (by omega) hk ih1
      have e : lo + ((m + 1 : Nat) : Int) = lo + (m : Int) + 1 := by push_cast; ring
      rw [e]; exact this
  have := key (hi + 1 - lo).toNat le_rfl
  have e : lo + (((hi + 1 - lo).toNat : Nat) : Int) = max lo (hi + 1) := by omega
  rw [e] at this
  exact this

theorem ScanInv_congr (S : vec2 F) (Q Q1 : Int → Int → Prop) (st : ScanState F)
    (h : ∀ yy xx, Q yy xx ↔ Q1 yy xx) (hi : ScanInv S Q st) : ScanInv S Q1 st := by
  have e : Q = Q1 := by funext yy xx; exact propext (h yy xx)
  rw [← e]; exact hi

theorem ScanInv_step (S : vec2 F) (Q : Int → Int → Prop) (st : ScanState F) (y0 x0 : Int)
    (hlex : ∀ yy xx, Q yy xx → (yy < y0 ∨ (yy = y0 ∧ xx < x0)))
    (hi : ScanInv S Q st) :
    ScanInv S (fun yy xx => Q yy xx ∨ (yy = y0 ∧ xx = x0)) (scanStep S st y0 x0) := by
  unfold scanStep
  by_cases hv : is_valid (at2 S y0 x0) = true
  · simp only [hv, Bool.not_true, Bool.false_eq_true, if_false]
    rcases hi with ⟨hst, hnone⟩ | ⟨hst, hQ, hval, hmax, hall⟩
    · subst hst
      simp only [scanInit, if_true]
      right
      refine ⟨rfl, Or.inr ⟨rfl, rfl⟩, hv, rfl, ?_⟩
      intro yy xx hq hvq
      rcases hq with hq | ⟨rfl, rfl⟩
      · rw [hnone yy xx hq] at hvq; exact absurd hvq (by simp)
      · exact ⟨le_rfl, fun h => by dsimp only at h; omega⟩
    · simp only [hst, Bool.false_eq_true, if_false]
      by_cases hgt : at2 S y0 x0 > st.current_max
      · simp only [hgt, if_true]
        right
        refine ⟨rfl, Or.inr ⟨rfl, rfl⟩, hv, rfl, ?_⟩
        intro yy xx hq hvq
        rcases hq with hq | ⟨rfl, rfl⟩
        · have := (hall yy xx hq hvq).1
          exact ⟨le_of_lt (lt_of_le_of_lt this hgt), fun _ => lt_of_le_of_lt this hgt⟩
        · exact ⟨le_rfl, fun h => by dsimp only at h; omega⟩
      · simp only [hgt, if_false]
        right
        refine ⟨hst, Or.inl hQ, hval, hmax, ?_⟩
        intro yy xx hq hvq
        rcases hq with hq | ⟨rfl, rfl⟩
        · exact hall yy xx hq hvq
        · refine ⟨not_lt.mp hgt, fun h => ?_⟩
          have := hlex _ _ hQ
          omega
  · have hv1 : is_valid (at2 S y0 x0) = false := by simpa using hv
    simp only [hv1, Bool.not_false, if_true]
    rcases hi with ⟨hst, hnone⟩ | ⟨hst, hQ, hval, hmax, hall⟩
    · left
      refine ⟨hst, ?_⟩
      intro yy xx hq
      rcases hq with hq | ⟨rfl, rfl⟩
      · exact hnone yy xx hq
      · exact hv1
    · right
      refine ⟨hst, Or.inl hQ, hval, hmax, ?_⟩
      intro yy xx hq hvq
      rcases hq with hq | ⟨rfl, rfl⟩
      · exact hall yy xx hq hvq
      · rw [hv1] at hvq; exact absurd hvq (by simp)

theorem scanWindow_inv (S : vec2 F) (nY nX hw y x : Int) :
    ScanInv S (InCodeWindow nY nX hw y x) (scanWindow S nY nX hw y x) := by
  unfold scanWindow
  set ylo := max 0 (wrap32 (y - hw)) with hylo
  set yhi := min (nY - 1) (wrap32 (y + hw)) with hyhi
  set xlo := max 0 (wrap32 (x - hw)) with hxlo
  set xhi := min (nX - 1) (wrap32 (x + hw)) with hxhi
  have W : ∀ yy xx, InCodeWindow nY nX hw y x yy xx ↔
      (ylo ≤ yy ∧ yy ≤ yhi ∧ xlo ≤ xx ∧ xx ≤ xhi) := fun yy xx => Iff.rfl
  have outer := foldl_intRange_inv
    (fun st yy => (intRange xlo xhi).foldl (fun st xx => scanStep S st yy xx) st)
    (fun k st => ScanInv S (fun yy xx => InCodeWindow nY nX hw y x yy xx ∧ yy < k) st)
    ylo yhi scanInit
    (by
      left
      refine ⟨rfl, ?_⟩
      intro yy xx h
      have := (W yy xx).1 h.1
      omega)
    (by
      intro k st hk1 hk2 hinv
      have inner := foldl_intRange_inv (fun st xx => scanStep S st k xx)
        (fun j st => ScanInv S
          (fun yy xx => InCodeWindow nY nX hw y x yy xx ∧ (yy < k ∨ (yy = k ∧ xx < j))) st)
        xlo xhi st
        (by
          refine ScanInv_congr S _ _ st ?_ hinv
          intro yy xx
          constructor
          · rintro ⟨h1, h2⟩; exact ⟨h1, Or.inl h2⟩
          · rintro ⟨h1, h2⟩
            have := (W yy xx).1 h1
            refine ⟨h1, ?_⟩
            omega)
        (by
          intro j st1 hj1 hj2 hinv1
          have := ScanInv_step S _ st1 k j (fun yy xx h => h.2) hinv1
          refine ScanInv_congr S _ _ _ ?_ this
          intro yy xx
          constructor
          · rintro (⟨h1, h2⟩ | ⟨rfl, rfl⟩)
            · refine ⟨h1, ?_⟩; omega
            · refine ⟨(W _ _).2 ⟨hk1, hk2, hj1, hj2⟩, ?_⟩; omega
          · rintro ⟨h1, h2⟩
            by_cases hc : yy = k ∧ xx = j
            · exact Or.inr hc
            · left; refine ⟨h1, ?_⟩; omega)
      refine ScanInv_congr S _ _ _ ?_ inner
      intro yy xx
      constructor
      · rintro ⟨h1, h2⟩
        have := (W yy xx).1 h1
        refine ⟨h1, ?_⟩; omega
      · rintro ⟨h1, h2⟩
        have := (W yy xx).1 h1
        refine ⟨h1, ?_⟩; omega)
  refine ScanInv_congr S _ _ _ ?_ outer
  intro yy xx
  constructor
  · rintro ⟨h1, _⟩; exact h1
  · intro h1
    have := (W yy xx).1 h1
    refine ⟨h1, ?_⟩; omega


theorem calc_neighbourhood_ok (A S : vec2 F) (hw : Int) (cmin cmax tmin tmax : F)
    (hc : cmin ≤ cmax) (ht : tmin ≤ tmax) (hh : 0 ≤ hw) :
    calc_neighbourhood A S hw cmin cmax tmin tmax =
      .ok ((List.range A.length).map fun (y : Nat) =>
        (List.range (A.getD y []).length).map fun (x : Nat) =>
          neighbourhoodCell A S hw cmin cmax tmin (y : Int) (x : Int)) := by
  unfold calc_neighbourhood
  rw [if_neg (not_lt.mpr hc), if_neg (not_lt.mpr ht), if_neg (not_lt.mpr hh)]

theorem cell?_map_range (n : Nat) (len : Nat → Nat) (f : Nat → Nat → F)
    (y x : Nat) (hy : y < n) (hx : x < len y) :
    cell? ((List.range n).map fun y => (List.range (len y)).map fun x => f y x) y x
      = some (f y x) := by
  simp [cell?, List.getElem?_map, List.getElem?_range, hy, hx]

theorem calc_neighbourhood_cell (A S : vec2 F) (hw : Int) (cmin cmax tmin tmax : F)
    (hc : cmin ≤ cmax) (ht : tmin ≤ tmax) (hh : 0 ≤ hw)
    (y x : Nat) (hy : y < A.length) (hx : x < (A.getD y []).length) :
    ∃ out, calc_neighbourhood A S hw cmin cmax tmin tmax = .ok out ∧
      cell? out y x = some (neighbourhoodCell A S hw cmin cmax tmin (y : Int) (x : Int)) := by
  refine ⟨_, calc_neighbourhood_ok A S hw cmin cmax tmin tmax hc ht hh, ?_⟩
  exact cell?_map_range A.length (fun y => (A.getD y []).length)
    (fun y x => neighbourhoodCell A S hw cmin cmax tmin (y : Int) (x : Int)) y x hy hx

theorem Rect_row_length (A : vec2 F) (nY nX y : Nat) (hA : Rect A nY nX) (hy : y < nY) :
    (A.getD y []).length = nX := by
  obtain ⟨h1, h2⟩ := hA
  have hy1 : y < A.length := by omega
  have : A.getD y [] = A[y] := by
    simp [List.getD_eq_getElem?_getD, List.getElem?_eq_getElem hy1]
  rw [this]
  exact h2 _ (List.getElem_mem hy1)

/-- C5: with valid arguments, a cell whose search value is below `c_min` or at least
`c_max` is copied from `A` unchanged, whatever the window holds. -/
theorem calc_neighbourhood_criteria_skip (A S : vec2 F) (hw : Int)
    (cmin cmax tmin tmax : F)
    (hc : cmin ≤ cmax) (ht : tmin ≤ tmax) (hh : 0 ≤ hw)
    (y x : Nat) (hy : y < A.length) (hx : x < (A.getD y []).length)
    (hS : at2 S y x < cmin ∨ at2 S y x ≥ cmax) :
    ∃ out, calc_neighbourhood A S hw cmin cmax tmin tmax = .ok out ∧
      cell? out y x = some (at2 A y x) := by
  obtain ⟨out, h1, h2⟩ := calc_neighbourhood_cell A S hw cmin cmax tmin tmax hc ht hh y x hy hx
  refine ⟨out, h1, ?_⟩
  rw [h2]
  congr 1
  unfold neighbourhoodCell
  rcases hS with hS | hS
  · simp only [hS, if_true]
  · by_cases h : at2 S y x < cmin
    · simp only [h, if_true]
    · simp only [h, if_false, hS, if_true]

/-- Witness for C5: scenario 5 of the spec, cell `(1, 1)` with `S = 4 ≥ c_max = 3`. -/
theorem calc_neighbourhood_criteria_skip_witness :
    ∃ out, calc_neighbourhood (F := ℚ) [[1, 2], [3, 4]] [[1, 2], [3, 4]] 1 0 3 0 10 = .ok out ∧
      cell? out 1 1 = some (at2 (F := ℚ) [[1, 2], [3, 4]] 1 1) :=
  calc_neighbourhood_criteria_skip (F := ℚ) [[1, 2], [3, 4]] [[1, 2], [3, 4]] 1 0 3 0 10
    (by decide) (by decide) (by decide) 1 1 (by decide) (by decide) (Or.inr (by decide))

/-- C6 (the code at a failing input): the only search value is the invalid sentinel, the
cell passes the criteria test (`-1000 ≤ -999 < 3`), its window holds no valid entry, and
the output cell is `A[0][0] = 7`, not `0`. -/
theorem calc_neighbourhood_no_valid_entry_not_zero :
    calc_neighbourhood (F := ℚ) [[7]] [[-999]] 0 (-1000) 3 (-2000) 10 = .ok [[7]] ∧
    is_valid (at2 (F := ℚ) [[-999]] 0 0) = false ∧
    ¬ (at2 (F := ℚ) [[-999]] 0 0 < -1000) ∧ ¬ (at2 (F := ℚ) [[-999]] 0 0 ≥ 3) :=
  ⟨rfl, by decide, by decide, by decide⟩

/-! ### Structure functions -/

theorem is_valid_of_nonneg (x : F) (h : 0 ≤ x) : is_valid x = true := by
  unfold is_valid MV
  simp only [ne_eq, decide_eq_true_eq]
  intro hx
  rw [hx] at h
  norm_num at h

theorem is_valid_iff (x : F) : is_valid x = true ↔ x ≠ -999 := by
  unfold is_valid MV
  simp

theorem base_ok (x : F) (l : F) (h : StructureFunction.base x = .ok l) :
    l = x ∧ is_valid x = true ∧ 0 ≤ x := by
  unfold StructureFunction.base at h
  by_cases hv : is_valid x = true
  · by_cases hx : x < 0
    · simp [hv, hx] at h
    · simp only [hv, hx, Bool.not_true, Bool.false_or, decide_False, Bool.false_eq_true,
        if_false, Except.ok.injEq] at h
      exact ⟨h.symm, hv, not_lt.mp hx⟩
  · have hv1 : is_valid x = false := by simpa using hv
    simp [hv1] at h

theorem base_of_valid (x : F) (hv : is_valid x = true) (hx : 0 ≤ x) :
    StructureFunction.base x = .ok x := by
  unfold StructureFunction.base
  simp [hv, not_lt.mpr hx]

theorem bind_ok_iff {α β : Type} (m : Except Error α) (f : α → Except Error β) (b : β) :
    (m >>= f) = .ok b ↔ ∃ a, m = .ok a ∧ f a = .ok b := by
  cases m with
  | error e => simp [bind, Except.bind]
  | ok a => simp [bind, Except.bind]

theorem cressman_new_ok (h v w : F) (s : StructureFunction F)
    (hs : CressmanStructure.new h v w = .ok s) :
    s = .cressman h h v w ∧ is_valid h = true ∧ 0 ≤ h := by
  unfold CressmanStructure.new at hs
  rw [bind_ok_iff] at hs
  obtain ⟨l, hl, hrest⟩ := hs
  obtain ⟨rfl, hv, hh⟩ := base_ok h l hl
  refine ⟨?_, hv, hh⟩
  split_ifs at hrest
  simpa using hrest.symm

theorem clone_scalar (E : Env F) (s : StructureFunction F) :
    ∀ s1, s.Scalar → s.clone E = .ok s1 →
      s1.Scalar ∧ (s1.horizontal_enabled ↔ s.horizontal_enabled) ∧
      (∀ p q, s1.corr E p q = s.corr E p q) ∧
      (∀ p, s1.localization_distance E p = s.localization_distance E p) := by
  induction s with
  | barnes g mH mV mW mr sp =>
    intro s1 hsc hcl
    obtain ⟨rfl, h, v, w, rfl, rfl, rfl⟩ := hsc
    simp [StructureFunction.clone, BarnesStructure.newSpatial] at hcl
    subst hcl
    exact ⟨⟨rfl, h, v, w, rfl, rfl, rfl⟩, Iff.rfl, fun _ _ => rfl, fun _ => rfl⟩
  | cressman l mH mV mW =>
    intro s1 hsc hcl
    obtain ⟨rfl, hv, hh⟩ := hsc
    simp only [StructureFunction.clone] at hcl
    obtain ⟨rfl, _, _⟩ := cressman_new_ok _ _ _ _ hcl
    exact ⟨⟨rfl, hv, hh⟩, Iff.rfl, fun _ _ => rfl, fun _ => rfl⟩
  | multiple a b c iha ihb ihc =>
    intro s1 hsc hcl
    obtain ⟨ha, hb, hc⟩ := hsc
    simp only [StructureFunction.clone, bind_ok_iff] at hcl
    obtain ⟨a1, ha1, b1, hb1, c1, hc1, hs1⟩ := hcl
    simp only [Except.ok.injEq] at hs1
    subst hs1
    obtain ⟨a2, a3, a4, a5⟩ := iha a1 ha ha1
    obtain ⟨b2, _, b4, _⟩ := ihb b1 hb hb1
    obtain ⟨c2, _, c4, _⟩ := ihc c1 hc hc1
    refine ⟨⟨a2, b2, c2⟩, a3, ?_, ?_⟩
    · intro p q
      simp only [StructureFunction.corr, a4, b4, c4]
    · intro p
      simp only [StructureFunction.localization_distance, a5]
  | crossValidation l a d iha =>
    intro s1 hsc hcl
    simp only [StructureFunction.clone, bind_ok_iff] at hcl
    obtain ⟨l1, _, hrest⟩ := hcl
    split_ifs at hrest
    rw [bind_ok_iff] at hrest
    obtain ⟨a1, ha1, hs1⟩ := hrest
    simp only [Except.ok.injEq] at hs1
    subst hs1
    obtain ⟨a2, a3, a4, a5⟩ := iha a1 hsc ha1
    refine ⟨a2, a3, ?_, ?_⟩
    · intro p q
      simp only [StructureFunction.corr, a4]
    · intro p
      simp only [StructureFunction.localization_distance, a5]

theorem built_scalar (E : Env F) (s : StructureFunction F) (hB : Built E s) : s.Scalar := by
  induction hB with
  | barnes h v w hmax s hs =>
    unfold BarnesStructure.new at hs
    split_ifs at hs <;>
      (simp only [Except.ok.injEq] at hs
       subst hs
       exact ⟨rfl, h, v, w, rfl, rfl, rfl⟩)
  | cressman h v w s hs =>
    obtain ⟨rfl, hv, hh⟩ := cressman_new_ok h v w s hs
    exact ⟨rfl, hv, hh⟩
  | multiple sh sv sw s _ _ _ hs iha ihb ihc =>
    simp only [MultipleStructure.new, bind_ok_iff] at hs
    obtain ⟨a1, ha1, b1, hb1, c1, hc1, hs1⟩ := hs
    simp only [Except.ok.injEq] at hs1
    subst hs1
    exact ⟨(clone_scalar E sh a1 iha ha1).1, (clone_scalar E sv b1 ihb hb1).1,
      (clone_scalar E sw c1 ihc hc1).1⟩
  | crossValidation inner dist s _ hs ih =>
    simp only [CrossValidation.new, bind_ok_iff] at hs
    obtain ⟨l1, _, hrest⟩ := hs
    split_ifs at hrest
    rw [bind_ok_iff] at hrest
    obtain ⟨a1, ha1, hs1⟩ := hrest
    simp only [Except.ok.injEq] at hs1
    subst hs1
    exact (clone_scalar E inner a1 ih ha1).1

theorem read2_singleton (h : F) : read2 [[h]] 0 0 = .ok h := by
  simp [read2]

theorem scalar_total (E : Env F) (s : StructureFunction F) (hsc : s.Scalar) :
    (∀ p, ∃ l, s.localization_distance E p = .ok l) ∧
    (∀ p q, ∃ r, s.corr E p q = .ok r) := by
  induction s with
  | barnes g mH mV mW mr sp =>
    obtain ⟨rfl, h, v, w, rfl, rfl, rfl⟩ := hsc
    constructor
    · intro p
      simp [StructureFunction.localization_distance, read2_singleton, bind, Except.bind]
    · intro p q
      simp only [StructureFunction.corr, StructureFunction.localization_distance,
        read2_singleton, bind, Except.bind, Bool.false_eq_true, if_false]
      split_ifs <;> simp
  | cressman l mH mV mW =>
    exact ⟨fun p => ⟨_, rfl⟩, fun p q => ⟨_, rfl⟩⟩
  | multiple a b c iha ihb ihc =>
    obtain ⟨ha, hb, hc⟩ := hsc
    constructor
    · intro p
      exact (iha ha).1 p
    · intro p q
      obtain ⟨r1, h1⟩ := (iha ha).2 ⟨p.lat, p.lon, p.elev, p.laf, p.type⟩
        ⟨q.lat, q.lon, p.elev, p.laf, p.type⟩
      obtain ⟨r2, h2⟩ := (ihb hb).2 ⟨p.lat, p.lon, p.elev, p.laf, p.type⟩
        ⟨p.lat, p.lon, q.elev, p.laf, p.type⟩
      obtain ⟨r3, h3⟩ := (ihc hc).2 ⟨p.lat, p.lon, p.elev, p.laf, p.type⟩
        ⟨p.lat, p.lon, p.elev, q.laf, p.type⟩
      refine ⟨r1 * r2 * r3, ?_⟩
      simp only [StructureFunction.corr, h1, h2, h3, bind, Except.bind]
  | crossValidation l a d iha =>
    exact ⟨fun p => (iha hsc).1 p, fun p q => (iha hsc).2 p q⟩

theorem cressman_rho_zero_of_ge (dist length : F) (hv : is_valid length = true)
    (hne : length ≠ 0) (hge : dist ≥ length) : cressman_rho dist length = 0 := by
  unfold cressman_rho
  simp only [hv, Bool.not_true, Bool.false_or, beq_iff_eq, hne, if_false]
  split_ifs <;> rfl

theorem scalar_corr_zero_beyond (E : Env F) (hdep : E.distance_horizontal)
    (s : StructureFunction F) :
    s.Scalar → s.horizontal_enabled → ∀ p q l, s.localization_distance E p = .ok l →
      E.calc_distance_fast p q > l → s.corr E p q = .ok 0 := by
  induction s with
  | barnes g mH mV mW mr sp =>
    intro _ _ p q l hl hgt
    simp only [StructureFunction.corr, hl, bind, Except.bind, hgt, if_true]
  | cressman l0 mH mV mW =>
    intro hsc hne p q l hl hgt
    obtain ⟨rfl, hv, _⟩ := hsc
    simp only [StructureFunction.localization_distance, Except.ok.injEq] at hl
    subst hl
    have h0 : cressman_rho (E.calc_distance_fast p q) l0 = 0 :=
      cressman_rho_zero_of_ge _ _ hv hne (le_of_lt hgt)
    simp only [StructureFunction.corr, h0, zero_mul, ite_self]
  | multiple a b c iha _ _ =>
    intro hsc hne p q l hl hgt
    obtain ⟨ha, hb, hc⟩ := hsc
    have hd : E.calc_distance_fast ⟨p.lat, p.lon, p.elev, p.laf, p.type⟩
        ⟨q.lat, q.lon, p.elev, p.laf, p.type⟩ = E.calc_distance_fast p q :=
      hdep _ _ _ _ rfl rfl rfl rfl
    have h1 := iha ha hne ⟨p.lat, p.lon, p.elev, p.laf, p.type⟩
      ⟨q.lat, q.lon, p.elev, p.laf, p.type⟩ l hl (by rw [hd]; exact hgt)
    obtain ⟨r2, h2⟩ := (scalar_total E b hb).2 ⟨p.lat, p.lon, p.elev, p.laf, p.type⟩
      ⟨p.lat, p.lon, q.elev, p.laf, p.type⟩
    obtain ⟨r3, h3⟩ := (scalar_total E c hc).2 ⟨p.lat, p.lon, p.elev, p.laf, p.type⟩
      ⟨p.lat, p.lon, p.elev, q.laf, p.type⟩
    simp only [StructureFunction.corr, h1, h2, h3, bind, Except.bind, zero_mul]
  | crossValidation l0 a d iha =>
    intro hsc hne p q l hl hgt
    exact iha hsc hne p q l hl hgt

/-- C7 (the code at a failing input): the structure `CressmanStructure(10, 1, 0)` is
built, and for two points at the same place whose elevations are 0 and 5 (elevation
difference `-5`) `corr` returns `-12/13`, below 0. -/
theorem cressman_corr_negative_elevation_difference :
    CressmanStructure.new (10 : ℚ) 1 0 = .ok (.cressman 10 10 1 0) ∧
    (StructureFunction.cressman (10 : ℚ) 10 1 0).corr demoEnv ⟨0, 0, 0, 0, 0⟩ ⟨0, 0, 5, 0, 0⟩
      = .ok (-12 / 13) ∧
    ((-12 / 13 : ℚ) < 0) := by
  refine ⟨by decide!, by decide!, by decide!⟩

/-- C8 (counterexample): `CressmanStructure(0, 0, 0)` is built, its localization
distance is 0, the two points are at distance 1, and `corr` returns 1, not 0. -/
theorem cressman_zero_length_corr_counterexample :
    CressmanStructure.new (0 : ℚ) 0 0 = .ok (.cressman 0 0 0 0) ∧
    (StructureFunction.cressman (0 : ℚ) 0 0 0).localization_distance demoEnv ⟨0, 0, 0, 0, 0⟩
      = .ok 0 ∧
    demoEnv.calc_distance_fast ⟨0, 0, 0, 0, 0⟩ ⟨0, 1, 0, 0, 0⟩ > 0 ∧
    (StructureFunction.cressman (0 : ℚ) 0 0 0).corr demoEnv ⟨0, 0, 0, 0, 0⟩ ⟨0, 1, 0, 0, 0⟩
      = .ok 1 ∧
    (StructureFunction.cressman (0 : ℚ) 0 0 0).corr demoEnv ⟨0, 0, 0, 0, 0⟩ ⟨0, 1, 0, 0, 0⟩
      ≠ .ok 0 := by
  refine ⟨by decide!, by decide!, by decide!, by decide!, by decide!⟩

/-- C8 (amended): for every structure built by successful constructor calls (scalar
Barnes, Cressman, Multiple, CrossValidation) whose horizontal kernel is not a Cressman
kernel of length 0, and a distance that depends on latitude and longitude only,
`corr(p, q) = 0` whenever `calc_distance_fast(p, q) > localization_distance(p)`. -/
theorem corr_zero_beyond_localization_distance (E : Env F) (s : StructureFunction F)
    (hdep : E.distance_horizontal) (hB : Built E s) (hne : s.horizontal_enabled)
    (p q : Point F) (l : F) (hl : s.localization_distance E p = .ok l)
    (hgt : E.calc_distance_fast p q > l) :
    s.corr E p q = .ok 0 :=
  scalar_corr_zero_beyond E hdep s (built_scalar E s hB) hne p q l hl hgt

theorem demoEnv_distance_horizontal : demoEnv.distance_horizontal := by
  intro p q p1 q1 h1 h2 h3 h4
  simp only [demoEnv, h1, h2, h3, h4]

/-- Witness for C8 (amended): `CressmanStructure(1, 0, 0)` and two points at distance 5. -/
theorem corr_zero_beyond_localization_distance_witness :
    (StructureFunction.cressman (1 : ℚ) 1 0 0).corr demoEnv ⟨0, 0, 0, 0, 0⟩ ⟨0, 5, 0, 0, 0⟩
      = .ok 0 :=
  corr_zero_beyond_localization_distance demoEnv (.cressman 1 1 0 0)
    demoEnv_distance_horizontal (Built.cressman 1 0 0 _ (by decide!))
    (by simp [StructureFunction.horizontal_enabled])
    ⟨0, 0, 0, 0, 0⟩ ⟨0, 5, 0, 0, 0⟩ 1 (by decide!) (by decide!)

/-- C9: a `CrossValidation` built from `structure0` and `dist` has `dist ≥ 0` and wraps
the clone `inner` of `structure0`; its `corr` is `inner`'s `corr`, and its
`corr_background` is 0 when `calc_distance_fast(p1, p2) ≤ dist` and `inner`'s
`corr_background` otherwise. -/
theorem crossValidation_corr_and_corr_background (E : Env F)
    (structure0 s : StructureFunction F) (dist : F)
    (hnew : CrossValidation.new E structure0 dist = .ok s) :
    0 ≤ dist ∧ ∃ inner, structure0.clone E = .ok inner ∧
      s = .crossValidation 0 inner dist ∧
      ∀ p1 p2, s.corr E p1 p2 = inner.corr E p1 p2 ∧
        s.corr_background E p1 p2 =
          if E.calc_distance_fast p1 p2 ≤ dist then .ok 0
          else inner.corr_background E p1 p2 := by
  simp only [CrossValidation.new, bind_ok_iff] at hnew
  obtain ⟨l1, hl1, hrest⟩ := hnew
  obtain ⟨rfl, _, _⟩ := base_ok _ _ hl1
  split_ifs at hrest with hbad
  rw [bind_ok_iff] at hrest
  obtain ⟨inner, hin, hs⟩ := hrest
  simp only [Except.ok.injEq] at hs
  subst hs
  have hd : is_valid dist = true ∧ 0 ≤ dist := by
    by_cases hv : is_valid dist = true
    · refine ⟨hv, ?_⟩
      by_contra hneg
      exact hbad (by simp [not_le.mp hneg])
    · have hv1 : is_valid dist = false := by simpa using hv
      exact absurd (by simp [hv1]) hbad
  refine ⟨hd.2, inner, hin, rfl, ?_⟩
  intro p1 p2
  refine ⟨rfl, ?_⟩
  simp only [StructureFunction.corr_background, hd.1, Bool.true_and, decide_eq_true_eq]

/-- Witness for C9: `CrossValidation(Cressman(1, 0, 0), 5)`. -/
theorem crossValidation_corr_and_corr_background_witness :
    (0 : ℚ) ≤ 5 ∧ ∃ inner, (StructureFunction.cressman (1 : ℚ) 1 0 0).clone demoEnv = .ok inner ∧
      StructureFunction.crossValidation 0 (.cressman 1 1 0 0) 5 = .crossValidation 0 inner 5 ∧
      ∀ p1 p2, (StructureFunction.crossValidation 0 (.cressman 1 1 0 0) 5).corr demoEnv p1 p2
          = inner.corr demoEnv p1 p2 ∧
        (StructureFunction.crossValidation 0 (.cressman 1 1 0 0) 5).corr_background demoEnv p1 p2 =
          if demoEnv.calc_distance_fast p1 p2 ≤ 5 then .ok 0
          else inner.corr_background demoEnv p1 p2 :=
  crossValidation_corr_and_corr_background demoEnv (.cressman 1 1 0 0)
    (.crossValidation 0 (.cressman 1 1 0 0) 5) 5 (by decide!)

theorem cressman_rho_disabled (dist : F) : cressman_rho dist 0 = 1 := by
  simp [cressman_rho]

theorem cressman_zero_corr (E : Env F) (l : F) (p q : Point F) :
    (StructureFunction.cressman l 0 0 0).corr E p q = .ok 1 := by
  simp [StructureFunction.corr, cressman_rho_disabled]

theorem cressman_zero_new : CressmanStructure.new (0 : F) 0 0 = .ok (.cressman 0 0 0 0) := by
  have h0 : is_valid (0 : F) = true := is_valid_of_nonneg 0 le_rfl
  simp [CressmanStructure.new, base_of_valid (0 : F) h0 le_rfl, h0, bind, Except.bind]

theorem crossValidation_new_cressman_zero (E : Env F) (dist : F) (hd : 0 ≤ dist) :
    CrossValidation.new E (.cressman 0 0 0 0) dist =
      .ok (.crossValidation 0 (.cressman 0 0 0 0) dist) := by
  have h0 : is_valid (0 : F) = true := is_valid_of_nonneg 0 le_rfl
  have hv := is_valid_of_nonneg dist hd
  simp [CrossValidation.new, StructureFunction.clone, cressman_zero_new,
    base_of_valid (0 : F) h0 le_rfl, hv, not_lt.mpr hd, bind, Except.bind]

theorem crossValidation_clone_cressman_zero (E : Env F) (dist : F) :
    (StructureFunction.crossValidation 0 (.cressman 0 0 0 0) dist).clone E =
      if !is_valid E.crossValidation_default_dist || E.crossValidation_default_dist < 0 then
        .error (.invalid_argument "Invalid 'dist' in CrossValidation structure")
      else .ok (.crossValidation 0 (.cressman 0 0 0 0) E.crossValidation_default_dist) := by
  have h0 : is_valid (0 : F) = true := is_valid_of_nonneg 0 le_rfl
  simp only [StructureFunction.clone, cressman_zero_new, base_of_valid (0 : F) h0 le_rfl,
    bind, Except.bind]

theorem crossValidation_cressman_zero_corr_background (E : Env F) (l dist : F) (hd : 0 ≤ dist)
    (p q : Point F) :
    (StructureFunction.crossValidation l (.cressman 0 0 0 0) dist).corr_background E p q =
      if E.calc_distance_fast p q ≤ dist then .ok 0 else .ok 1 := by
  have hv := is_valid_of_nonneg dist hd
  simp only [StructureFunction.corr_background, hv, Bool.true_and, decide_eq_true_eq,
    cressman_zero_corr]

/-- C10 (the code on failing inputs): whatever default the header gives the `dist`
argument, for any two points at positive distance there is a `CrossValidation` structure,
built by its constructor around `CressmanStructure(0, 0, 0)`, whose `clone()` either
throws or returns a structure with a different `corr_background` on these points. -/
theorem crossValidation_clone_drops_dist (E : Env F) (p q : Point F)
    (hpos : 0 < E.calc_distance_fast p q) :
    CressmanStructure.new (0 : F) 0 0 = .ok (.cressman 0 0 0 0) ∧
    ∃ dist s, CrossValidation.new E (.cressman 0 0 0 0) dist = .ok s ∧
      ((∃ e, s.clone E = .error e) ∨
       ∃ s1, s.clone E = .ok s1 ∧ s1.corr_background E p q ≠ s.corr_background E p q) := by
  refine ⟨cressman_zero_new, ?_⟩
  by_cases hbad : (!is_valid E.crossValidation_default_dist ||
      decide (E.crossValidation_default_dist < 0)) = true
  · refine ⟨0, _, crossValidation_new_cressman_zero E 0 le_rfl,
      Or.inl ⟨.invalid_argument "Invalid 'dist' in CrossValidation structure", ?_⟩⟩
    rw [crossValidation_clone_cressman_zero, if_pos hbad]
  · have hdef : 0 ≤ E.crossValidation_default_dist := by
      by_contra hneg
      exact hbad (by simp [not_le.mp hneg])
    by_cases hle : E.calc_distance_fast p q ≤ E.crossValidation_default_dist
    · have hhalf : 0 ≤ E.calc_distance_fast p q / 2 := by positivity
      refine ⟨E.calc_distance_fast p q / 2, _,
        crossValidation_new_cressman_zero E _ hhalf, Or.inr
          ⟨.crossValidation 0 (.cressman 0 0 0 0) E.crossValidation_default_dist, ?_, ?_⟩⟩
      · rw [crossValidation_clone_cressman_zero, if_neg hbad]
      · rw [crossValidation_cressman_zero_corr_background E 0 _ hdef,
          crossValidation_cressman_zero_corr_background E 0 _ hhalf, if_pos hle,
          if_neg (by intro h; linarith)]
        simp
    · refine ⟨E.calc_distance_fast p q, _,
        crossValidation_new_cressman_zero E _ (le_of_lt hpos), Or.inr
          ⟨.crossValidation 0 (.cressman 0 0 0 0) E.crossValidation_default_dist, ?_, ?_⟩⟩
      · rw [crossValidation_clone_cressman_zero, if_neg hbad]
      · rw [crossValidation_cressman_zero_corr_background E 0 _ hdef,
          crossValidation_cressman_zero_corr_background E 0 _ (le_of_lt hpos), if_neg hle,
          if_pos le_rfl]
        simp

/-- Witness for C10: the instance over `ℚ` and two points at distance 1. -/
theorem crossValidation_clone_drops_dist_witness :
    CressmanStructure.new (0 : ℚ) 0 0 = .ok (.cressman 0 0 0 0) ∧
    ∃ dist s, CrossValidation.new demoEnv (.cressman 0 0 0 0) dist = .ok s ∧
      ((∃ e, s.clone demoEnv = .error e) ∨
       ∃ s1, s.clone demoEnv = .ok s1 ∧
        s1.corr_background demoEnv ⟨0, 0, 0, 0, 0⟩ ⟨0, 1, 0, 0, 0⟩ ≠
          s.corr_background demoEnv ⟨0, 0, 0, 0, 0⟩ ⟨0, 1, 0, 0, 0⟩) :=
  crossValidation_clone_drops_dist demoEnv ⟨0, 0, 0, 0, 0⟩ ⟨0, 1, 0, 0, 0⟩ (by decide!)

/-! ### Optimal interpolation -/

theorem mapE_ok_map {α β : Type} (f : α → Except Error β) (g : α → β) (l : List α)
    (h : ∀ a ∈ l, f a = .ok (g a)) : mapE f l = .ok (l.map g) := by
  induction l with
  | nil => rfl
  | cons a l ih =>
    have h1 := h a (List.mem_cons_self a l)
    have h2 := ih (fun b hb => h b (List.mem_cons_of_mem a hb))
    simp only [mapE, h1, h2, List.map_cons]

theorem mapE_get {α β : Type} (f : α → Except Error β) (l : List α) :
    ∀ r, mapE f l = .ok r →
      ∀ i a, l.get? i = some a → ∃ b, r.get? i = some b ∧ f a = .ok b := by
  induction l with
  | nil => intro r _ i a hi; simp at hi
  | cons a0 l ih =>
    intro r hr i a hi
    simp only [mapE] at hr
    cases h1 : f a0 with
    | error e => rw [h1] at hr; simp at hr
    | ok b0 =>
      rw [h1] at hr
      cases h2 : mapE f l with
      | error e => rw [h2] at hr; simp at hr
      | ok bs =>
        rw [h2] at hr
        simp only [Except.ok.injEq] at hr
        subst hr
        cases i with
        | zero =>
          simp only [List.get?_cons_zero, Option.some.injEq] at hi
          subst hi
          exact ⟨b0, by simp, h1⟩
        | succ i =>
          simp only [List.get?_cons_succ] at hi
          obtain ⟨b, hb1, hb2⟩ := ih bs h2 i a hi
          exact ⟨b, by simpa using hb1, hb2⟩

theorem oi_ok_cell (E : Env F) (bgrid : Grid F) (background : vec2 F) (points : Points F)
    (pobs pratios pbackground : vec F) (s : StructureFunction F) (max_points : Int)
    (out : vec2 F)
    (h : optimal_interpolation E bgrid background points pobs pratios pbackground s max_points
      = .ok out)
    (y x : Nat) (hy : y < background.length) (hx : x < (background.getD 0 []).length) :
    ∃ c v, oi_setup E bgrid points pobs pratios pbackground s = .ok c ∧
      oi_gridpoint E bgrid background s max_points c y x = .ok v ∧ cell? out y x = some v := by
  unfold optimal_interpolation at h
  split_ifs at h
  cases hc : oi_setup E bgrid points pobs pratios pbackground s with
  | error e => rw [hc] at h; simp at h
  | ok c =>
    rw [hc] at h
    simp only at h
    cases hm : mapE (fun (x : Nat) => mapE (fun (y : Nat) =>
        oi_gridpoint E bgrid background s max_points c y x) (List.range background.length))
        (List.range (background.getD 0 []).length) with
    | error e => rw [hm] at h; simp at h
    | ok cols =>
      rw [hm] at h
      simp only [Except.ok.injEq] at h
      subst h
      obtain ⟨col, hcol1, hcol2⟩ := mapE_get _ _ cols hm x x
        (by rw [List.get?_eq_getElem?]; exact List.getElem?_range hx)
      obtain ⟨v, hv1, hv2⟩ := mapE_get _ _ col hcol2 y y
        (by rw [List.get?_eq_getElem?]; exact List.getElem?_range hy)
      refine ⟨c, v, rfl, hv2, ?_⟩
      rw [cell?_map_range background.length (fun _ => (background.getD 0 []).length)
        (fun y x => (cols.getD x []).getD y 0) y x hy hx]
      simp only [List.get?_eq_getElem?] at hcol1 hv1
      simp [List.getD_eq_getElem?_getD, hcol1, hv1]

theorem lRhos0_loop_nil (E : Env F) (s : StructureFunction F) (points0 : Points F)
    (p2 : Point F) (l : List (Nat × Nat))
    (h : ∀ e ∈ l, ∃ q rho, points0.get? e.2 = some q ∧
      s.corr E (Point.mk4 q.lat q.lon q.elev q.laf) p2 = .ok rho ∧ rho ≤ 0) :
    lRhos0_loop E s points0 p2 l = .ok [] := by
  induction l with
  | nil => rfl
  | cons e l ih =>
    obtain ⟨i, index⟩ := e
    obtain ⟨q, rho, hq, hrho, hle⟩ := h (i, index) (List.mem_cons_self _ _)
    have ih1 := ih (fun e he => h e (List.mem_cons_of_mem _ he))
    have hq1 : read1 points0 index = .ok q := by
      simp only [read1]; simp only at hq; rw [hq]
    simp only [lRhos0_loop, hq1, hrho, ih1, not_lt.mpr hle, if_false]

theorem select_retained_nil (E : Env F) (max_points : Int) (lLocIndices0 : ivec) :
    select_retained E max_points lLocIndices0 [] = [] := by
  unfold select_retained
  rw [if_neg (by simp only [List.length_nil, Nat.cast_zero]; omega)]
  rfl

theorem oi_gridpoint_fallback (E : Env F) (bgrid : Grid F) (background : vec2 F)
    (s : StructureFunction F) (max_points : Int) (c : OISetup F) (y x : Nat)
    (h : E.get_neighbours c.points0 (at2 bgrid.lats y x) (at2 bgrid.lons y x)
        c.localizationRadius = [] ∨
      ∀ index ∈ E.get_neighbours c.points0 (at2 bgrid.lats y x) (at2 bgrid.lons y x)
          c.localizationRadius,
        ∃ q rho, c.points0.get? index = some q ∧
          s.corr E (Point.mk4 q.lat q.lon q.elev q.laf)
            (Point.mk4 (at2 bgrid.lats y x) (at2 bgrid.lons y x) (at2 bgrid.elevs y x)
              (at2 bgrid.lafs y x)) = .ok rho ∧ rho ≤ 0) :
    oi_gridpoint E bgrid background s max_points c y x = .ok (at2 background y x) := by
  unfold oi_gridpoint retained_at
  by_cases hemp : (E.get_neighbours c.points0 (at2 bgrid.lats y x) (at2 bgrid.lons y x)
      c.localizationRadius).length = 0
  · simp only [hemp, if_true]
  · rcases h with h | h
    · rw [h] at hemp; simp at hemp
    · simp only [hemp, if_false]
      rw [lRhos0_loop_nil E s c.points0 _ _ (fun e he => h e.2 (List.snd_mem_of_mem_enum he))]
      simp only [select_retained_nil, List.length_nil, if_true]

theorem oi_setup_ok (E : Env F) (bgrid : Grid F) (points : Points F)
    (pobs pratios pbackground : vec F) (s : StructureFunction F) (c : OISetup F)
    (hc : oi_setup E bgrid points pobs pratios pbackground s = .ok c) :
    c.indices = get_in_domain_indices E points bgrid ∧
    c.points0 = get_in_domain E points bgrid ∧
    c.pobs0 = (get_in_domain_indices E points bgrid).map (fun k => pobs.getD k 0) ∧
    c.pratios0 = (get_in_domain_indices E points bgrid).map (fun k => pratios.getD k 0) ∧
    s.localization_distance E E.default_point = .ok c.localizationRadius ∧
    c.gY = pbackground := by
  simp only [oi_setup, bind_ok_iff] at hc
  obtain ⟨r, hr, hc1⟩ := hc
  simp only [Except.ok.injEq] at hc1
  subst hc1
  exact ⟨rfl, rfl, rfl, rfl, hr, rfl⟩

theorem getD_map_range {β : Type} (n : Nat) (f : Nat → β) (i : Nat) (d : β) (h : i < n) :
    ((List.range n).map f).getD i d = f i := by
  simp [List.getD_eq_getElem?_getD, List.getElem?_map, List.getElem?_range h]

theorem rect_rebuild (bg : vec2 F) (nY nX : Nat) (hR : Rect bg nY nX) :
    ((List.range bg.length).map fun (y : Nat) =>
      (List.range (bg.getD 0 []).length).map fun (x : Nat) =>
        (((List.range (bg.getD 0 []).length).map fun (x : Nat) =>
          (List.range bg.length).map fun (y : Nat) => at2 bg y x).getD x []).getD y 0) = bg := by
  have hlen : bg.length = nY := hR.1
  apply List.ext_getElem
  · simp
  · intro y h1 h2
    have hy : y < nY := by omega
    have hrow := Rect_row_length bg nY nX y hR hy
    have hrow0 := Rect_row_length bg nY nX 0 hR (by omega)
    have hgy : bg.getD y [] = bg[y] := by
      simp [List.getD_eq_getElem?_getD, List.getElem?_eq_getElem h2]
    simp only [List.getElem_map, List.getElem_range]
    apply List.ext_getElem
    · simp only [List.length_map, List.length_range]
      rw [hrow0, ← hgy, hrow]
    · intro x h3 h4
      have hx : x < (bg.getD 0 []).length := by simpa using h3
      simp only [List.getElem_map, List.getElem_range]
      rw [getD_map_range _ _ x [] hx, getD_map_range _ _ y 0 h2]
      simp [at2, List.getD_eq_getElem?_getD, List.getElem?_eq_getElem h2,
        List.getElem?_eq_getElem h4]

/-- C1: at a gridpoint where the radius query returns nothing, or where every returned
observation has a correlation `≤ 0` with the gridpoint, the gridpoint's value is
`background[y][x]`, and so is that cell of any returned field; and when no point lies in
the grid's domain (and the radius query only returns indices of points it was given), a
call with valid arguments returns the background itself. -/
theorem optimal_interpolation_background_fallback (E : Env F) (bgrid : Grid F)
    (background : vec2 F) (points : Points F) (pobs pratios pbackground : vec F)
    (s : StructureFunction F) (max_points : Int) (c : OISetup F)
    (hc : oi_setup E bgrid points pobs pratios pbackground s = .ok c) :
    (∀ y x : Nat,
      (E.get_neighbours c.points0 (at2 bgrid.lats y x) (at2 bgrid.lons y x)
          c.localizationRadius = [] ∨
        ∀ index ∈ E.get_neighbours c.points0 (at2 bgrid.lats y x) (at2 bgrid.lons y x)
            c.localizationRadius,
          ∃ q rho, c.points0.get? index = some q ∧
            s.corr E (Point.mk4 q.lat q.lon q.elev q.laf)
              (Point.mk4 (at2 bgrid.lats y x) (at2 bgrid.lons y x) (at2 bgrid.elevs y x)
                (at2 bgrid.lafs y x)) = .ok rho ∧ rho ≤ 0) →
      oi_gridpoint E bgrid background s max_points c y x = .ok (at2 background y x) ∧
      ∀ out, optimal_interpolation E bgrid background points pobs pratios pbackground s
          max_points = .ok out →
        y < background.length → x < (background.getD 0 []).length →
        cell? out y x = some (at2 background y x)) ∧
    (∀ nY nX : Nat, get_in_domain E points bgrid = [] →
      (∀ pts lat lon r, ∀ i ∈ E.get_neighbours pts lat lon r, i < pts.length) →
      0 ≤ max_points → Rect background nY nX →
      background.length = bgrid.size.1 → (background.getD 0 []).length = bgrid.size.2 →
      pobs.length = points.length → pratios.length = points.length →
      optimal_interpolation E bgrid background points pobs pratios pbackground s max_points
        = .ok background) := by
  constructor
  · intro y x h
    have hcell := oi_gridpoint_fallback E bgrid background s max_points c y x h
    refine ⟨hcell, ?_⟩
    intro out hout hy hx
    obtain ⟨c1, v, hc1, hv, hcellout⟩ := oi_ok_cell E bgrid background points pobs pratios
      pbackground s max_points out hout y x hy hx
    rw [hc] at hc1
    simp only [Except.ok.injEq] at hc1
    subst hc1
    rw [hcell] at hv
    simp only [Except.ok.injEq] at hv
    rw [hcellout, hv]
  · intro nY nX hdom hN hmp hR h1 h2 h3 h4
    have hp0 : c.points0 = [] := by
      rw [(oi_setup_ok E bgrid points pobs pratios pbackground s c hc).2.1, hdom]
    have hall : ∀ y x : Nat,
        oi_gridpoint E bgrid background s max_points c y x = .ok (at2 background y x) := by
      intro y x
      apply oi_gridpoint_fallback
      left
      apply List.eq_nil_iff_forall_not_mem.mpr
      intro i hi
      have := hN _ _ _ _ i hi
      rw [hp0] at this
      simp at this
    unfold optimal_interpolation
    rw [if_neg (not_lt.mpr hmp), if_neg (by rw [not_or]; exact ⟨not_not.mpr h1, not_not.mpr h2⟩), if_neg (by simp [h3]),
      if_neg (by simp [h4])]
    simp only [hc]
    rw [mapE_ok_map _ (fun (x : Nat) => (List.range background.length).map
      (fun (y : Nat) => at2 background y x)) _
      (fun x _ => mapE_ok_map _ _ _ (fun y _ => hall y x))]
    simp only
    rw [rect_rebuild background nY nX hR]

theorem solve_rows_single (o yv r g : F) (hr : 0 ≤ r) :
    solve_rows [(⟨o, yv, r, g, [1]⟩ : LocalRow F)] = .ok (g * (o - yv) / (1 + r)) := by
  have hne : (1 : F) + r ≠ 0 := by positivity
  unfold solve_rows arma_inv
  simp only [bind, Except.bind]
  have hdet : (Matrix.of (fun (i j : Fin [(⟨o, yv, r, g, [1]⟩ : LocalRow F)].length) =>
        ([(⟨o, yv, r, g, [1]⟩ : LocalRow F)].get i).lP.getD j.val 0) +
      Matrix.diagonal (fun i => ([(⟨o, yv, r, g, [1]⟩ : LocalRow F)].get i).lR)).det
      = 1 + r := by
    have : Unique (Fin [(⟨o, yv, r, g, [1]⟩ : LocalRow F)].length) :=
      inferInstanceAs (Unique (Fin 1))
    rw [Matrix.det_unique]
    simp
  rw [hdet, if_neg hne]
  simp only [Except.ok.injEq]
  have hsub : Subsingleton (Fin [(⟨o, yv, r, g, [1]⟩ : LocalRow F)].length) :=
    inferInstanceAs (Subsingleton (Fin 1))
  rw [Matrix.adjugate_subsingleton]
  simp [Matrix.vecMul, Matrix.dotProduct, Matrix.one_apply]
  field_simp

theorem read1_ok {α : Type} (v : List α) (i : Nat) (a : α) (h : v.get? i = some a) :
    read1 v i = .ok a := by
  simp only [read1, h]

theorem enum_single {α : Type} (a : α) : [a].enum = [(0, a)] := rfl

theorem assemble_single (E : Env F) (s : StructureFunction F) (c : OISetup F)
    (k : Nat) (rho o r yv : F) (q : Point F)
    (hq : c.points0.get? k = some q) (ho : c.pobs0.get? k = some o)
    (hr : c.pratios0.get? k = some r) (hy : c.gY.get? k = some yv) :
    mapE (assemble_row E s c [(k, rho)]) [(k, rho)].enum = .ok [⟨o, yv, r, rho, [1]⟩] := by
  rw [enum_single]
  have hrow : assemble_row E s c [(k, rho)] (0, (k, rho)) = .ok ⟨o, yv, r, rho, [1]⟩ := by
    simp only [assemble_row, enum_single, read1_ok _ _ _ ho, read1_ok _ _ _ hy,
      read1_ok _ _ _ hr, read1_ok _ _ _ hq, bind, Except.bind, mapE, if_true]
  simp only [mapE, hrow]

/-- The solve of lines 149-176 with one retained observation: at a gridpoint whose
retained observations are the single observation `k` with correlation `rho`, observed
value `o = pobs0[k]`, noise ratio `r = pratios0[k] ≥ 0` and the model value `yv = gY[k]`
that line 161 reads at the domain-local index, the gridpoint's value (and that cell of
any returned field) is `background[y][x] + rho * (o - yv) / (1 + r)`; with `r = 0`,
`rho = 1` and `yv = background[y][x]` it is `o`. -/
theorem optimal_interpolation_single_observation (E : Env F) (bgrid : Grid F)
    (background : vec2 F) (points : Points F) (pobs pratios pbackground : vec F)
    (s : StructureFunction F) (max_points : Int) (c : OISetup F)
    (hc : oi_setup E bgrid points pobs pratios pbackground s = .ok c)
    (y x k : Nat) (rho o r yv : F) (q : Point F)
    (hret : retained_at E s max_points c (at2 bgrid.lats y x) (at2 bgrid.lons y x)
      (at2 bgrid.elevs y x) (at2 bgrid.lafs y x) = .ok (some [(k, rho)]))
    (hq : c.points0.get? k = some q) (ho : c.pobs0.get? k = some o)
    (hr : c.pratios0.get? k = some r) (hy : c.gY.get? k = some yv) (hr0 : 0 ≤ r) :
    oi_gridpoint E bgrid background s max_points c y x
      = .ok (at2 background y x + rho * (o - yv) / (1 + r)) ∧
    (∀ out, optimal_interpolation E bgrid background points pobs pratios pbackground s
        max_points = .ok out →
      y < background.length → x < (background.getD 0 []).length →
      cell? out y x = some (at2 background y x + rho * (o - yv) / (1 + r))) ∧
    (r = 0 → rho = 1 → yv = at2 background y x →
      oi_gridpoint E bgrid background s max_points c y x = .ok o) := by
  have hcell : oi_gridpoint E bgrid background s max_points c y x
      = .ok (at2 background y x + rho * (o - yv) / (1 + r)) := by
    unfold oi_gridpoint
    simp only [hret, List.length_singleton, one_ne_zero, if_false,
      assemble_single E s c k rho o r yv q hq ho hr hy, solve_rows_single o yv r rho hr0]
  refine ⟨hcell, ?_, ?_⟩
  · intro out hout hy1 hx1
    obtain ⟨c1, v, hc1, hv, hcellout⟩ := oi_ok_cell E bgrid background points pobs pratios
      pbackground s max_points out hout y x hy1 hx1
    rw [hc] at hc1
    simp only [Except.ok.injEq] at hc1
    subst hc1
    rw [hcell] at hv
    simp only [Except.ok.injEq] at hv
    rw [hcellout, hv]
  · intro h1 h2 h3
    rw [hcell, h1, h2, h3]
    congr 1
    ring

theorem demoEnv_get_neighbours_lt :
    ∀ (pts : List (Point ℚ)) (lat lon r : ℚ), ∀ i ∈ demoEnv.get_neighbours pts lat lon r,
      i < pts.length := by
  intro pts lat lon r i hi
  simp only [demoEnv, List.mem_filter, List.mem_range] at hi
  exact hi.1

/-- Witness for C1: a one-cell grid with background 10 and a single point, which lies
outside the domain. -/
theorem optimal_interpolation_background_fallback_witness :
    (oi_gridpoint demoEnv demoGrid [[10]] demoCressman 0 ⟨[], [], [], [], 1, [10]⟩ 0 0
        = .ok (at2 [[10]] 0 0) ∧
      ∀ out, optimal_interpolation demoEnv demoGrid [[10]] [⟨5, 5, 0, 0, 0⟩] [12] [0] [10]
          demoCressman 0 = .ok out →
        0 < ([[10]] : vec2 ℚ).length → 0 < (([[10]] : vec2 ℚ).getD 0 []).length →
        cell? out 0 0 = some (at2 [[10]] 0 0)) ∧
    optimal_interpolation demoEnv demoGrid [[10]] [⟨5, 5, 0, 0, 0⟩] [12] [0] [10]
      demoCressman 0 = .ok [[10]] := by
  have h := optimal_interpolation_background_fallback demoEnv demoGrid [[10]]
    [⟨5, 5, 0, 0, 0⟩] [12] [0] [10] demoCressman 0 ⟨[], [], [], [], 1, [10]⟩ (by decide!)
  exact ⟨h.1 0 0 (Or.inl (by decide!)),
    h.2 1 1 (by decide!) demoEnv_get_neighbours_lt (by decide) ⟨rfl, by decide⟩
      (by decide) (by decide) (by decide) (by decide)⟩

/-- An instance of the solve with one retained observation: scenario 1 of the spec at
the centre cell, background 10, one observation 12 at the gridpoint with
`pbackground = 10` and `pratios = 0`, no point outside the domain. -/
theorem optimal_interpolation_single_observation_witness :
    oi_gridpoint demoEnv demoGrid [[10]] demoCressman 0
        ⟨[0], [⟨0, 0, 0, 0, 0⟩], [12], [0], 1, [10]⟩ 0 0
      = .ok (at2 [[10]] 0 0 + 1 * (12 - 10) / (1 + 0)) ∧
    oi_gridpoint demoEnv demoGrid [[10]] demoCressman 0
        ⟨[0], [⟨0, 0, 0, 0, 0⟩], [12], [0], 1, [10]⟩ 0 0 = .ok 12 := by
  have h := optimal_interpolation_single_observation demoEnv demoGrid [[10]]
    [⟨0, 0, 0, 0, 0⟩] [12] [0] [10] demoCressman 0
    ⟨[0], [⟨0, 0, 0, 0, 0⟩], [12], [0], 1, [10]⟩ (by decide!)
    0 0 0 1 12 0 10 ⟨0, 0, 0, 0, 0⟩ (by decide!) (by decide!) (by decide!) (by decide!)
    (by decide!) (by decide)
  exact ⟨h.1, h.2.2 rfl rfl (by decide!)⟩

/-- C3 (the code at a failing input): of two points the first lies outside the domain, so
the index map is `[1]`; `pobs` and `pratios` are remapped (`pobs0 = [12]`,
`pratios0 = [0]`) but `gY` is the whole `pbackground = [3, 10]`, and the retained
observation (local index 0, original index 1) is given the model value
`pbackground[0] = 3` of the dropped point: the analysis is `10 + (12 - 3) = 19`, not
`10 + (12 - 10) = 12`. -/
theorem optimal_interpolation_pbackground_not_remapped :
    oi_setup demoEnv demoGrid [⟨5, 5, 0, 0, 0⟩, ⟨0, 0, 0, 0, 0⟩] [0, 12] [0, 0] [3, 10]
        demoCressman
      = .ok ⟨[1], [⟨0, 0, 0, 0, 0⟩], [12], [0], 1, [3, 10]⟩ ∧
    retained_at demoEnv demoCressman 0 ⟨[1], [⟨0, 0, 0, 0, 0⟩], [12], [0], 1, [3, 10]⟩
        0 0 0 0 = .ok (some [(0, 1)]) ∧
    optimal_interpolation demoEnv demoGrid [[10]] [⟨5, 5, 0, 0, 0⟩, ⟨0, 0, 0, 0, 0⟩]
        [0, 12] [0, 0] [3, 10] demoCressman 0 = .ok [[19]] := by
  refine ⟨by decide!, by decide!, by decide!⟩

/-- C2 (the code at a failing input): of two points the first lies outside the domain.
At the only gridpoint exactly one observation is retained, the second point (local
index 0, original index 1), with correlation `rho = 1`, observed value `pobs[1] = 12`,
noise ratio `pratios[1] = 0` and background at the observation `pbackground[1] = 10`,
equal to `background[0][0] = 10`: the claim gives `10 + 1 * (12 - 10) / (1 + 0) = 12`,
the observed value.  The code returns 19. -/
theorem optimal_interpolation_single_observation_wrong_model_value :
    get_in_domain_indices demoEnv [⟨5, 5, 0, 0, 0⟩, ⟨0, 0, 0, 0, 0⟩] demoGrid = [1] ∧
    retained_at demoEnv demoCressman 0 ⟨[1], [⟨0, 0, 0, 0, 0⟩], [12], [0], 1, [3, 10]⟩
        0 0 0 0 = .ok (some [(0, 1)]) ∧
    ([0, 12] : vec ℚ).get? 1 = some 12 ∧ ([0, 0] : vec ℚ).get? 1 = some 0 ∧
    ([3, 10] : vec ℚ).get? 1 = some 10 ∧ at2 ([[10]] : vec2 ℚ) 0 0 = 10 ∧
    ((10 : ℚ) + 1 * (12 - 10) / (1 + 0) = 12) ∧
    optimal_interpolation demoEnv demoGrid [[10]] [⟨5, 5, 0, 0, 0⟩, ⟨0, 0, 0, 0, 0⟩]
        [0, 12] [0, 0] [3, 10] demoCressman 0 = .ok [[19]] ∧
    optimal_interpolation demoEnv demoGrid [[10]] [⟨5, 5, 0, 0, 0⟩, ⟨0, 0, 0, 0, 0⟩]
        [0, 12] [0, 0] [3, 10] demoCressman 0 ≠ .ok [[12]] := by
  refine ⟨by decide!, by decide!, by decide, by decide, by decide, by decide!, by decide!,
    by decide!, by decide!⟩

/-! ### Argument checks -/

theorem optimal_interpolation_rejects (E : Env F) (bgrid : Grid F) (background : vec2 F)
    (points : Points F) (pobs pratios pbackground : vec F) (s : StructureFunction F)
    (max_points : Int)
    (h : max_points < 0 ∨ background.length ≠ bgrid.size.1 ∨
      (background.getD 0 []).length ≠ bgrid.size.2 ∨ pobs.length ≠ points.length ∨
      pratios.length ≠ points.length) :
    ∃ e, optimal_interpolation E bgrid background points pobs pratios pbackground s max_points
      = .error e := by
  unfold optimal_interpolation
  split_ifs with h1 h2 h3 h4
  · exact ⟨_, rfl⟩
  · exact ⟨_, rfl⟩
  · exact ⟨_, rfl⟩
  · exact ⟨_, rfl⟩
  · exfalso
    rcases h with h | h | h | h | h
    · exact h1 h
    · exact h2 (Or.inl h)
    · exact h2 (Or.inr h)
    · exact h3 h
    · exact h4 h

/-- C11 (the code at a failing input): one point, `pobs` and `pratios` of length 1 and a
`pbackground` of length 2; the call is not rejected and returns the field `[[12]]`. -/
theorem optimal_interpolation_accepts_pbackground_mismatch :
    ([10, 99] : vec ℚ).length ≠ ([⟨0, 0, 0, 0, 0⟩] : Points ℚ).length ∧
    optimal_interpolation demoEnv demoGrid [[10]] [⟨0, 0, 0, 0, 0⟩] [12] [0] [10, 99]
      demoCressman 0 = .ok [[12]] := by
  refine ⟨by decide, by decide!⟩

theorem calc_neighbourhood_rect (A S : vec2 F) (nY nX : Nat) (hw : Int)
    (cmin cmax tmin tmax : F) (hA : Rect A nY nX)
    (hc : cmin ≤ cmax) (ht : tmin ≤ tmax) (hh : 0 ≤ hw) :
    ∃ out, calc_neighbourhood A S hw cmin cmax tmin tmax = .ok out ∧ Rect out nY nX := by
  refine ⟨_, calc_neighbourhood_ok A S hw cmin cmax tmin tmax hc ht hh, ?_, ?_⟩
  · simp [hA.1]
  · intro row hrow
    simp only [List.mem_map, List.mem_range] at hrow
    obtain ⟨y, hy, rfl⟩ := hrow
    simp only [List.length_map, List.length_range]
    exact Rect_row_length A nY nX y hA (by rw [← hA.1]; exact hy)

/-- C12: for non-empty rectangular `A` and `S` of equal shape, `calc_neighbourhood` ends
in an invalid-argument error if and only if `c_min > c_max` or `t_min > t_max` or
`halfwidth < 0`; otherwise it returns a field, of the shape of `A`. -/
theorem calc_neighbourhood_invalid_argument_iff (A S : vec2 F) (nY nX : Nat) (hw : Int)
    (cmin cmax tmin tmax : F) (hA : Rect A nY nX) (_hS : Rect S nY nX)
    (_hne : 0 < nY ∧ 0 < nX) :
    ((∃ msg, calc_neighbourhood A S hw cmin cmax tmin tmax = .error (.invalid_argument msg)) ↔
      (cmin > cmax ∨ tmin > tmax ∨ hw < 0)) ∧
    (¬ (cmin > cmax ∨ tmin > tmax ∨ hw < 0) →
      ∃ out, calc_neighbourhood A S hw cmin cmax tmin tmax = .ok out ∧ Rect out nY nX) := by
  have hok : ¬ (cmin > cmax ∨ tmin > tmax ∨ hw < 0) →
      ∃ out, calc_neighbourhood A S hw cmin cmax tmin tmax = .ok out ∧ Rect out nY nX := by
    intro hn
    simp only [not_or, not_lt] at hn
    exact calc_neighbourhood_rect A S nY nX hw cmin cmax tmin tmax hA hn.1 hn.2.1 hn.2.2
  refine ⟨⟨?_, ?_⟩, hok⟩
  · rintro ⟨msg, hmsg⟩
    by_contra hn
    obtain ⟨out, hout, _⟩ := hok hn
    rw [hout] at hmsg
    exact absurd hmsg (by simp)
  · intro h
    unfold calc_neighbourhood
    split_ifs with h1 h2 h3
    · exact ⟨_, rfl⟩
    · exact ⟨_, rfl⟩
    · exact ⟨_, rfl⟩
    · exfalso
      rcases h with h | h | h
      · exact h1 h
      · exact h2 h
      · exact h3 h

/-- Witness for C12: the fields of scenario 4 with `c_min = 0 ≤ c_max = 10`,
`t_min = 0 ≤ t_max = 10` and `halfwidth = 1`. -/
theorem calc_neighbourhood_invalid_argument_iff_witness :
    ((∃ msg, calc_neighbourhood (F := ℚ) [[1, 2], [3, 4]] [[1, 2], [3, 4]] 1 0 10 0 10
        = .error (.invalid_argument msg)) ↔
      ((0 : ℚ) > 10 ∨ (0 : ℚ) > 10 ∨ (1 : Int) < 0)) ∧
    (¬ ((0 : ℚ) > 10 ∨ (0 : ℚ) > 10 ∨ (1 : Int) < 0) →
      ∃ out, calc_neighbourhood (F := ℚ) [[1, 2], [3, 4]] [[1, 2], [3, 4]] 1 0 10 0 10
        = .ok out ∧ Rect out 2 2) :=
  calc_neighbourhood_invalid_argument_iff (F := ℚ) [[1, 2], [3, 4]] [[1, 2], [3, 4]] 2 2 1
    0 10 0 10 ⟨rfl, by decide⟩ ⟨rfl, by decide⟩ ⟨by decide, by decide⟩

theorem bad_iff (x : F) :
    ((!is_valid x || decide (x < 0)) = true) ↔ (is_valid x = false ∨ x < 0) := by
  simp only [Bool.or_eq_true, Bool.not_eq_true', decide_eq_true_eq]

theorem bad_hmax_iff (x : F) :
    ((is_valid x && decide (x < 0)) = true) ↔ (is_valid x = true ∧ x < 0) := by
  simp only [Bool.and_eq_true, decide_eq_true_eq]

theorem barnes_new_error_iff (E : Env F) (h v w hmax : F) :
    (∃ msg, BarnesStructure.new E h v w hmax = .error (.invalid_argument msg)) ↔
      ((is_valid h = false ∨ h < 0) ∨ (is_valid v = false ∨ v < 0) ∨
        (is_valid w = false ∨ w < 0) ∨ (is_valid hmax = true ∧ hmax < 0)) := by
  unfold BarnesStructure.new
  simp only [bad_iff, bad_hmax_iff]
  split_ifs with h1 h2 h3 h4
  · exact ⟨fun _ => Or.inr (Or.inr (Or.inr h1)), fun _ => ⟨_, rfl⟩⟩
  · exact ⟨fun _ => Or.inl h2, fun _ => ⟨_, rfl⟩⟩
  · exact ⟨fun _ => Or.inr (Or.inl h3), fun _ => ⟨_, rfl⟩⟩
  · exact ⟨fun _ => Or.inr (Or.inr (Or.inl h4)), fun _ => ⟨_, rfl⟩⟩
  · constructor
    · rintro ⟨msg, hmsg⟩
      exact absurd hmsg (by simp)
    · rintro (hp | hp | hp | hp)
      · exact absurd hp h2
      · exact absurd hp h3
      · exact absurd hp h4
      · exact absurd hp h1

theorem cressman_new_error_iff (h v w : F) :
    (∃ msg, CressmanStructure.new h v w = .error (.invalid_argument msg)) ↔
      ((is_valid h = false ∨ h < 0) ∨ (is_valid v = false ∨ v < 0) ∨
        (is_valid w = false ∨ w < 0)) := by
  unfold CressmanStructure.new StructureFunction.base
  simp only [bad_iff]
  by_cases h1 : is_valid h = false ∨ h < 0
  · simp only [if_pos h1, bind, Except.bind]
    exact ⟨fun _ => Or.inl h1, fun _ => ⟨_, rfl⟩⟩
  · simp only [if_neg h1, bind, Except.bind]
    by_cases h2 : is_valid v = false ∨ v < 0
    · simp only [if_pos h2]
      exact ⟨fun _ => Or.inr (Or.inl h2), fun _ => ⟨_, rfl⟩⟩
    · simp only [if_neg h2]
      by_cases h3 : is_valid w = false ∨ w < 0
      · simp only [if_pos h3]
        exact ⟨fun _ => Or.inr (Or.inr h3), fun _ => ⟨_, rfl⟩⟩
      · simp only [if_neg h3]
        constructor
        · rintro ⟨msg, hmsg⟩
          exact absurd hmsg (by simp)
        · rintro (hp | hp | hp)
          · exact absurd hp h1
          · exact absurd hp h2
          · exact absurd hp h3

theorem crossValidation_new_bad_dist (E : Env F) (structure0 : StructureFunction F) (dist : F)
    (hbad : is_valid dist = false ∨ dist < 0) :
    CrossValidation.new E structure0 dist =
      .error (.invalid_argument "Invalid 'dist' in CrossValidation structure") := by
  have h0 : is_valid (0 : F) = true := is_valid_of_nonneg 0 le_rfl
  have : (!is_valid dist || decide (dist < 0)) = true := by
    simpa only [Bool.or_eq_true, Bool.not_eq_true', decide_eq_true_eq] using hbad
  simp only [CrossValidation.new, base_of_valid (0 : F) h0 le_rfl, bind, Except.bind, this,
    if_true]

theorem crossValidation_new_good_dist (E : Env F) (structure0 : StructureFunction F) (dist : F)
    (hv : is_valid dist = true) (hd : 0 ≤ dist) :
    CrossValidation.new E structure0 dist =
      match structure0.clone E with
      | .error e => .error e
      | .ok inner => .ok (.crossValidation 0 inner dist) := by
  have h0 : is_valid (0 : F) = true := is_valid_of_nonneg 0 le_rfl
  simp only [CrossValidation.new, base_of_valid (0 : F) h0 le_rfl, bind, Except.bind, hv,
    not_lt.mpr hd, Bool.not_true, Bool.false_or, decide_False, Bool.false_eq_true, if_false]
  cases structure0.clone E <;> rfl

theorem crossValidation_new_shape (E : Env F) (structure0 s : StructureFunction F) (dist : F)
    (hnew : CrossValidation.new E structure0 dist = .ok s) :
    ∃ inner, s = .crossValidation 0 inner dist := by
  simp only [CrossValidation.new, bind_ok_iff] at hnew
  obtain ⟨l1, hl1, hrest⟩ := hnew
  obtain ⟨rfl, _, _⟩ := base_ok _ _ hl1
  split_ifs at hrest
  rw [bind_ok_iff] at hrest
  obtain ⟨inner, _, hs⟩ := hrest
  simp only [Except.ok.injEq] at hs
  exact ⟨inner, hs.symm⟩

theorem crossValidation_clone_bad_default (E : Env F)
    (hdef : is_valid E.crossValidation_default_dist = false ∨ E.crossValidation_default_dist < 0)
    (l : F) (inner : StructureFunction F) (d : F) :
    (StructureFunction.crossValidation l inner d).clone E =
      .error (.invalid_argument "Invalid 'dist' in CrossValidation structure") := by
  have h0 : is_valid (0 : F) = true := is_valid_of_nonneg 0 le_rfl
  have : (!is_valid E.crossValidation_default_dist ||
      decide (E.crossValidation_default_dist < 0)) = true := by
    simpa only [Bool.or_eq_true, Bool.not_eq_true', decide_eq_true_eq] using hdef
  simp only [StructureFunction.clone, base_of_valid (0 : F) h0 le_rfl, bind, Except.bind, this,
    if_true]

/-- C13 (the code on failing inputs): the scalar Barnes and the Cressman constructors
fail with invalid-argument exactly on the arguments the claim names, and the
`CrossValidation` constructor fails on an invalid or negative `dist`; but with a header
default for `dist` that is invalid or negative (the one `CrossValidation::clone` passes
on), constructing a `CrossValidation` around a `CrossValidation` fails for every valid,
non-negative `dist` too. -/
theorem constructor_argument_checks (E : Env F)
    (hdef : is_valid E.crossValidation_default_dist = false ∨
      E.crossValidation_default_dist < 0) :
    (∀ h v w hmax : F,
      (∃ msg, BarnesStructure.new E h v w hmax = .error (.invalid_argument msg)) ↔
        ((is_valid h = false ∨ h < 0) ∨ (is_valid v = false ∨ v < 0) ∨
          (is_valid w = false ∨ w < 0) ∨ (is_valid hmax = true ∧ hmax < 0))) ∧
    (∀ h v w : F,
      (∃ msg, CressmanStructure.new h v w = .error (.invalid_argument msg)) ↔
        ((is_valid h = false ∨ h < 0) ∨ (is_valid v = false ∨ v < 0) ∨
          (is_valid w = false ∨ w < 0))) ∧
    (∀ (structure0 : StructureFunction F) (dist : F), (is_valid dist = false ∨ dist < 0) →
      ∃ msg, CrossValidation.new E structure0 dist = .error (.invalid_argument msg)) ∧
    (∀ (inner s : StructureFunction F) (d0 dist : F),
      CrossValidation.new E inner d0 = .ok s → is_valid dist = true → 0 ≤ dist →
      CrossValidation.new E s dist =
        .error (.invalid_argument "Invalid 'dist' in CrossValidation structure")) := by
  refine ⟨barnes_new_error_iff E, cressman_new_error_iff, ?_, ?_⟩
  · intro structure0 dist hbad
    exact ⟨_, crossValidation_new_bad_dist E structure0 dist hbad⟩
  · intro inner s d0 dist hs hv hd
    obtain ⟨inner1, rfl⟩ := crossValidation_new_shape E inner s d0 hs
    rw [crossValidation_new_good_dist E _ dist hv hd,
      crossValidation_clone_bad_default E hdef]

/-- Witness for C13: with the sentinel as default `dist`,
`CrossValidation(CrossValidation(CressmanStructure(1, 0, 0), 5), 3)` fails. -/
theorem constructor_argument_checks_witness :
    CrossValidation.new demoEnv demoCressman 5 = .ok (.crossValidation 0 demoCressman 5) ∧
    CrossValidation.new demoEnv (.crossValidation 0 demoCressman 5) 3 =
      .error (.invalid_argument "Invalid 'dist' in CrossValidation structure") :=
  ⟨by decide!,
    (constructor_argument_checks demoEnv (Or.inl (by decide!))).2.2.2 demoCressman
      (.crossValidation 0 demoCressman 5) 5 3 (by decide!) (by decide!) (by decide)⟩

/-- C14 (counterexample): three `1 × 1` length fields on a `2 × 2` carrier grid are
accepted, and the structure is built as a non-spatial one. -/
theorem barnes_spatial_accepts_scalar_fields_counterexample :
    demoGrid2.size = (2, 2) ∧
    BarnesStructure.newSpatial demoGrid2 [[1]] [[0]] [[0]] (1 / 2 : ℚ)
      = .ok (.barnes demoGrid2 [[1]] [[0]] [[0]] (1 / 2) false) := by
  refine ⟨by decide, by decide!⟩

/-- C14 (amended): unless all three length fields are `1 × 1`, constructing a spatial
Barnes structure fails with invalid-argument whenever one of the fields differs from the
carrier grid in its number of rows or in the length of its first row. -/
theorem barnes_spatial_shape_mismatch (grid : Grid F) (h v w : vec2 F) (min_rho : F)
    (hnot : ¬ (h.length = 1 ∧ (h.getD 0 []).length = 1 ∧ v.length = 1 ∧
      (v.getD 0 []).length = 1 ∧ w.length = 1 ∧ (w.getD 0 []).length = 1))
    (hdiff : (grid.size.1 ≠ h.length ∨ grid.size.1 ≠ v.length ∨ grid.size.1 ≠ w.length) ∨
      (grid.size.2 ≠ (h.getD 0 []).length ∨ grid.size.2 ≠ (v.getD 0 []).length ∨
        grid.size.2 ≠ (w.getD 0 []).length)) :
    BarnesStructure.newSpatial grid h v w min_rho =
      .error (.invalid_argument "Grid size not the same as scale size") := by
  unfold BarnesStructure.newSpatial
  rw [if_neg hnot]
  by_cases h1 : grid.size.1 ≠ h.length ∨ grid.size.1 ≠ v.length ∨ grid.size.1 ≠ w.length
  · rw [if_pos h1]
  · rw [if_neg h1]
    rcases hdiff with hd | hd
    · exact absurd hd h1
    · rw [if_pos hd]

/-- Witness for C14 (amended): `2 × 2` fields `h`, `v` and a `1 × 2` field `w` on a
`2 × 2` grid. -/
theorem barnes_spatial_shape_mismatch_witness :
    BarnesStructure.newSpatial demoGrid2 [[1, 1], [1, 1]] [[0, 0], [0, 0]] [[0, 0]] (1 / 2 : ℚ) =
      .error (.invalid_argument "Grid size not the same as scale size") :=
  barnes_spatial_shape_mismatch demoGrid2 [[1, 1], [1, 1]] [[0, 0], [0, 0]] [[0, 0]] (1 / 2)
    (by decide) (Or.inl (by decide))

/-- C20 (the code at a failing input): a spatial Barnes structure with `2 × 2` length
fields, two points at the same place, and a nearest-neighbour lookup that answers row 2.
The index is not below the number of rows, the test of line 113 (`I[0] > mH.size()`)
does not fire, and both `localization_distance` (line 180, called at line 108) and the
read of line 115 index the length field outside its rows: the call ends in a read out
of range, not in a runtime error. -/
theorem barnes_spatial_corr_index_out_of_range :
    BarnesStructure.newSpatial demoGrid2 [[1, 1], [1, 1]] [[0, 0], [0, 0]] [[0, 0], [0, 0]]
        (1 / 2 : ℚ)
      = .ok (.barnes demoGrid2 [[1, 1], [1, 1]] [[0, 0], [0, 0]] [[0, 0], [0, 0]] (1 / 2) true) ∧
    demoEnvRow2.get_nearest_neighbour demoGrid2 0 0 = (2, 0) ∧
    ¬ ((2 : Int) < 0 ∨ (2 : Int) > (([[1, 1], [1, 1]] : vec2 ℚ).length : Int)) ∧
    ([[1, 1], [1, 1]] : vec2 ℚ).get? (2 : Int).toNat = none ∧
    (StructureFunction.barnes demoGrid2 [[1, 1], [1, 1]] [[0, 0], [0, 0]] [[0, 0], [0, 0]]
        (1 / 2 : ℚ) true).localization_distance demoEnvRow2 ⟨0, 0, 0, 0, 0⟩
      = .error .out_of_range ∧
    (StructureFunction.barnes demoGrid2 [[1, 1], [1, 1]] [[0, 0], [0, 0]] [[0, 0], [0, 0]]
        (1 / 2 : ℚ) true).corr demoEnvRow2 ⟨0, 0, 0, 0, 0⟩ ⟨0, 0, 0, 0, 0⟩
      = .error .out_of_range := by
  refine ⟨by decide!, by decide!, by decide, by decide, by decide!, by decide!⟩

theorem barnes_new_shape (E : Env F) (h v w hmax : F) (s : StructureFunction F)
    (hs : BarnesStructure.new E h v w hmax = .ok s) :
    ∃ m_min_rho, s = .barnes ⟨[], [], [], []⟩ [[h]] [[v]] [[w]] m_min_rho false := by
  unfold BarnesStructure.new at hs
  split_ifs at hs <;>
    (simp only [Except.ok.injEq] at hs
     exact ⟨_, hs.symm⟩)

theorem barnes_scalar_corr (E : Env F) (g : Grid F) (h v w mr : F) (p1 p2 : Point F) (l : F)
    (hl : (StructureFunction.barnes g [[h]] [[v]] [[w]] mr false).localization_distance E p1
      = .ok l)
    (hin : ¬ E.calc_distance_fast p1 p2 > l) :
    (StructureFunction.barnes g [[h]] [[v]] [[w]] mr false).corr E p1 p2
      = .ok (barnes_product E (E.calc_distance_fast p1 p2) h v w p1 p2) := by
  simp only [StructureFunction.corr, hl, bind, Except.bind, hin, if_false, read2_singleton,
    Bool.false_eq_true]

/-- C18 (counterexample): the scalar Barnes structure `BarnesStructure(1, 1, 0, 1)` has
vertical length 1; the two points are at the same place (distance 0, localization
distance 1) and the first has no elevation; `corr` returns 1, not 0. -/
theorem barnes_missing_elevation_counterexample :
    BarnesStructure.new demoEnv 1 1 0 1
      = .ok (.barnes ⟨[], [], [], []⟩ [[1]] [[1]] [[0]] (2 / 3) false) ∧
    is_valid (MV : ℚ) = false ∧
    (StructureFunction.barnes ⟨[], [], [], []⟩ [[1]] [[1]] [[0]] (2 / 3 : ℚ) false
      ).localization_distance demoEnv ⟨0, 0, MV, 0, 0⟩ = .ok 1 ∧
    demoEnv.calc_distance_fast ⟨0, 0, MV, 0, 0⟩ ⟨0, 0, 0, 0, 0⟩ = 0 ∧
    (StructureFunction.barnes ⟨[], [], [], []⟩ [[1]] [[1]] [[0]] (2 / 3 : ℚ) false
      ).corr demoEnv ⟨0, 0, MV, 0, 0⟩ ⟨0, 0, 0, 0, 0⟩ = .ok 1 := by
  refine ⟨by decide!, by decide!, by decide!, by decide!, by decide!⟩

/-- C18 (amended): for a scalar Barnes structure and two points within the localization
distance, when either point's elevation is missing the vertical factor is skipped
(treated as 1): `corr` is the horizontal factor times the LAF factor; and when either
point's LAF is missing the LAF factor is skipped: `corr` is the horizontal factor times
the vertical factor. -/
theorem barnes_missing_coordinate_skips_factor (E : Env F) (h v w hmax : F)
    (s : StructureFunction F) (hs : BarnesStructure.new E h v w hmax = .ok s)
    (p1 p2 : Point F) (l : F) (hl : s.localization_distance E p1 = .ok l)
    (hin : ¬ E.calc_distance_fast p1 p2 > l) :
    ((is_valid p1.elev = false ∨ is_valid p2.elev = false) →
      s.corr E p1 p2 = .ok (barnes_rho E (E.calc_distance_fast p1 p2) h *
        (if is_valid p1.laf = true ∧ is_valid p2.laf = true then
          barnes_rho E (p1.laf - p2.laf) w else 1))) ∧
    ((is_valid p1.laf = false ∨ is_valid p2.laf = false) →
      s.corr E p1 p2 = .ok (barnes_rho E (E.calc_distance_fast p1 p2) h *
        (if is_valid p1.elev = true ∧ is_valid p2.elev = true then
          barnes_rho E (p1.elev - p2.elev) v else 1))) := by
  obtain ⟨mr, rfl⟩ := barnes_new_shape E h v w hmax s hs
  rw [barnes_scalar_corr E _ h v w mr p1 p2 l hl hin]
  constructor
  · intro hmiss
    have he : (is_valid p1.elev && is_valid p2.elev) = false := by
      rcases hmiss with hm | hm <;> simp [hm]
    unfold barnes_product
    simp only [he, Bool.false_eq_true, if_false, Bool.and_eq_true]
    split_ifs
    · rfl
    · rw [mul_one]
  · intro hmiss
    have he : (is_valid p1.laf && is_valid p2.laf) = false := by
      rcases hmiss with hm | hm <;> simp [hm]
    unfold barnes_product
    simp only [he, Bool.false_eq_true, if_false, Bool.and_eq_true]
    split_ifs
    · rfl
    · rw [mul_one]

/-- Witness for C18 (amended): `BarnesStructure(1, 1, 0, 1)` and two points at the same
place, the first without elevation. -/
theorem barnes_missing_coordinate_skips_factor_witness :
    (StructureFunction.barnes ⟨[], [], [], []⟩ [[1]] [[1]] [[0]] (2 / 3 : ℚ) false
      ).corr demoEnv ⟨0, 0, MV, 0, 0⟩ ⟨0, 0, 0, 0, 0⟩
      = .ok (barnes_rho demoEnv (demoEnv.calc_distance_fast ⟨0, 0, MV, 0, 0⟩ ⟨0, 0, 0, 0, 0⟩) 1 *
        (if is_valid (0 : ℚ) = true ∧ is_valid (0 : ℚ) = true then
          barnes_rho demoEnv ((0 : ℚ) - 0) 0 else 1)) :=
  (barnes_missing_coordinate_skips_factor demoEnv 1 1 0 1 _ (by decide!)
    ⟨0, 0, MV, 0, 0⟩ ⟨0, 0, 0, 0, 0⟩ 1 (by decide!) (by decide!)).1 (Or.inl (by decide!))

/-! ### Reads of `calc_neighbourhood` -/

theorem mem_intRange (lo hi k : Int) : k ∈ intRange lo hi ↔ lo ≤ k ∧ k ≤ hi := by
  unfold intRange
  simp only [List.mem_map, List.mem_range]
  constructor
  · rintro ⟨n, hn, rfl⟩
    omega
  · intro h
    exact ⟨(k - lo).toNat, by omega, by omega⟩

theorem Rect_cell (A : vec2 F) (nY nX : Nat) (hA : Rect A nY nX) (i j : Nat)
    (hi : i < nY) (hj : j < nX) : ∃ a, cell? A i j = some a := by
  have hlen : i < A.length := by rw [hA.1]; exact hi
  have hrow : A[i].length = nX := hA.2 _ (List.getElem_mem hlen)
  have hj1 : j < A[i].length := by rw [hrow]; exact hj
  exact ⟨A[i][j], by simp [cell?, List.getElem?_eq_getElem hlen, List.getElem?_eq_getElem hj1]⟩

/-- C17: for rectangular `A` and `S` of the same shape `nY × nX` and a cell `(y, x)` of
the grid, every index pair at which `calc_neighbourhood` reads `S` or `A` while
computing that cell lies in `0 ≤ yy < nY`, `0 ≤ xx < nX`, whatever the halfwidth (also
when the `int` sums `y + halfwidth`, `x + halfwidth` wrap); both fields have a cell
there. -/
theorem calc_neighbourhood_reads_in_bounds (A S : vec2 F) (nY nX : Nat) (hw : Int)
    (cmin cmax tmin : F) (hA : Rect A nY nX) (hS : Rect S nY nX)
    (y x : Nat) (hy : y < nY) (hx : x < nX) :
    ∀ yy xx : Int, (yy, xx) ∈ neighbourhoodReads A S hw cmin cmax tmin y x →
      (0 ≤ yy ∧ yy < nY ∧ 0 ≤ xx ∧ xx < nX) ∧
      (∃ a, cell? A yy.toNat xx.toNat = some a) ∧ (∃ s, cell? S yy.toNat xx.toNat = some s) := by
  have hlen : A.length = nY := hA.1
  have hrow0 := Rect_row_length A nY nX 0 hA (by omega)
  have key : ∀ yy xx : Int, (yy, xx) ∈ neighbourhoodReads A S hw cmin cmax tmin y x →
      (0 ≤ yy ∧ yy < nY ∧ 0 ≤ xx ∧ xx < nX) := by
    intro yy xx hmem
    have hself : (0 : Int) ≤ (y : Int) ∧ (y : Int) < nY ∧ (0 : Int) ≤ (x : Int) ∧ (x : Int) < nX := by
      omega
    unfold neighbourhoodReads at hmem
    simp only [hlen, hrow0] at hmem
    split_ifs at hmem with h1 h2 h3 h4
    · simp only [List.mem_cons, Prod.mk.injEq, List.mem_singleton, or_self, List.not_mem_nil,
        or_false] at hmem
      obtain ⟨rfl, rfl⟩ := hmem
      exact hself
    · simp only [List.mem_cons, Prod.mk.injEq, List.mem_singleton, or_self, List.not_mem_nil,
        or_false] at hmem
      obtain ⟨rfl, rfl⟩ := hmem
      exact hself
    all_goals
      simp only [List.mem_append, List.mem_cons, Prod.mk.injEq, List.mem_singleton,
        List.not_mem_nil, or_false, or_self, List.mem_flatMap, List.mem_map, mem_intRange] at hmem
    · rcases hmem with ⟨rfl, rfl⟩ | ⟨a, ha, b, hb, rfl, rfl⟩
      · exact hself
      · omega
    · rcases hmem with (⟨rfl, rfl⟩ | ⟨a, ha, b, hb, rfl, rfl⟩) | ⟨rfl, rfl⟩
      · exact hself
      · omega
      · exact hself
    · rcases hmem with (⟨rfl, rfl⟩ | ⟨a, ha, b, hb, rfl, rfl⟩) | ⟨rfl, rfl⟩
      · exact hself
      · omega
      · have inv := scanWindow_inv S (nY : Int) (nX : Int) hw (y : Int) (x : Int)
        rcases inv with ⟨hinit, _⟩ | ⟨_, hQ, _⟩
        · rw [hinit]
          simp only [scanInit]
          omega
        · unfold InCodeWindow at hQ
          omega
  intro yy xx hmem
  obtain ⟨h1, h2, h3, h4⟩ := key yy xx hmem
  exact ⟨⟨h1, h2, h3, h4⟩, Rect_cell A nY nX hA _ _ (by omega) (by omega),
    Rect_cell S nY nX hS _ _ (by omega) (by omega)⟩

/-- Witness for C17: the corner cell `(0, 0)` of the `2 × 2` fields of scenario 4 with
halfwidth 5, larger than the grid, and the read of the maximum at `(1, 1)`; and cell
`(0, 1)` with halfwidth `2147483647`, where `x + halfwidth` wraps, the scanned window is
empty and the reads are `S[0][1]` (twice) and `A[0][0]`. -/
theorem calc_neighbourhood_reads_in_bounds_witness :
    (((0 : Int) ≤ 1 ∧ (1 : Int) < (2 : Nat) ∧ (0 : Int) ≤ 1 ∧ (1 : Int) < (2 : Nat)) ∧
      (∃ a, cell? ([[1, 2], [3, 4]] : vec2 ℚ) (1 : Int).toNat (1 : Int).toNat = some a) ∧
      (∃ s, cell? ([[1, 2], [3, 4]] : vec2 ℚ) (1 : Int).toNat (1 : Int).toNat = some s)) ∧
    neighbourhoodReads (F := ℚ) [[1, 2], [3, 4]] [[1, 2], [3, 4]] 2147483647 0 10 0 0 1
      = [(0, 1), (0, 1), (0, 0)] ∧
    (((0 : Int) ≤ 0 ∧ (0 : Int) < (2 : Nat) ∧ (0 : Int) ≤ 0 ∧ (0 : Int) < (2 : Nat)) ∧
      (∃ a, cell? ([[1, 2], [3, 4]] : vec2 ℚ) (0 : Int).toNat (0 : Int).toNat = some a) ∧
      (∃ s, cell? ([[1, 2], [3, 4]] : vec2 ℚ) (0 : Int).toNat (0 : Int).toNat = some s)) :=
  ⟨calc_neighbourhood_reads_in_bounds (F := ℚ) [[1, 2], [3, 4]] [[1, 2], [3, 4]] 2 2 5 0 10 0
      ⟨rfl, by decide⟩ ⟨rfl, by decide⟩ 0 0 (by decide) (by decide) 1 1 (by decide!),
    by decide!,
    calc_neighbourhood_reads_in_bounds (F := ℚ) [[1, 2], [3, 4]] [[1, 2], [3, 4]] 2 2
      2147483647 0 10 0 ⟨rfl, by decide⟩ ⟨rfl, by decide⟩ 0 1 (by decide) (by decide) 0 0
      (by decide!)⟩

/-! ### Top-k selection -/

theorem lRhos0_loop_spec (E : Env F) (s : StructureFunction F) (points0 : Points F)
    (p2 : Point F) (l : List Nat) :
    ∀ (k : Nat) (r : List (F × Nat)), lRhos0_loop E s points0 p2 (l.enumFrom k) = .ok r →
      ∃ rhos, mapE (candidate_rho E s points0 p2) l = .ok rhos ∧
        r = ((rhos.enumFrom k).filter (fun e => decide (e.2 > 0))).map (fun e => (e.2, e.1)) := by
  induction l with
  | nil =>
    intro k r hr
    simp only [List.enumFrom_nil, lRhos0_loop, Except.ok.injEq] at hr
    exact ⟨[], rfl, by simp [← hr]⟩
  | cons index l ih =>
    intro k r hr
    simp only [List.enumFrom_cons, lRhos0_loop] at hr
    cases hq : read1 points0 index with
    | error e => rw [hq] at hr; simp at hr
    | ok q =>
      rw [hq] at hr
      simp only at hr
      cases hrho : s.corr E (Point.mk4 q.lat q.lon q.elev q.laf) p2 with
      | error e => rw [hrho] at hr; simp at hr
      | ok rho =>
        rw [hrho] at hr
        simp only at hr
        cases htail : lRhos0_loop E s points0 p2 (l.enumFrom (k + 1)) with
        | error e => rw [htail] at hr; simp at hr
        | ok tail =>
          rw [htail] at hr
          simp only at hr
          obtain ⟨rhos, hrhos, htl⟩ := ih (k + 1) tail htail
          have hc : candidate_rho E s points0 p2 index = .ok rho := by
            simp only [candidate_rho, hq, hrho]
          refine ⟨rho :: rhos, by simp only [mapE, hc, hrhos], ?_⟩
          by_cases hpos : rho > 0
          · rw [if_pos hpos] at hr
            simp only [Except.ok.injEq] at hr
            simp [← hr, htl, List.enumFrom_cons, List.filter_cons, hpos]
          · rw [if_neg hpos] at hr
            simp only [Except.ok.injEq] at hr
            simp [← hr, htl, List.enumFrom_cons, List.filter_cons, hpos]

theorem top_suffix_eq (l : List (F × Nat)) (k : Nat) (hk : k ≤ l.length) (d : F × Nat) :
    (List.range k).map (fun (i : Nat) => l.getD (l.length - 1 - i) d)
      = (l.drop (l.length - k)).reverse := by
  apply List.ext_getElem
  · simp only [List.length_map, List.length_range, List.length_reverse, List.length_drop]
    omega
  · intro i h1 h2
    simp only [List.length_map, List.length_range] at h1
    have h3 : l.length - 1 - i < l.length := by omega
    simp only [List.getElem_map, List.getElem_range, List.getElem_reverse, List.getElem_drop,
      List.length_drop, List.getD_eq_getElem?_getD, List.getElem?_eq_getElem h3,
      Option.getD_some]
    congr 1
    omega

/-- C19: with a sort that rearranges its input into non-decreasing correlations, the
candidates `lRhos0` kept by the loop of lines 109-117 are the pairs `(rho_i, i)` with
`rho_i > 0` in query order; when `max_points > 0` and there are more than `max_points` of
them, exactly `max_points` are retained, each with its own correlation, and no dropped
candidate has a larger correlation than a retained one; when `max_points = 0` or there
are at most `max_points`, all are retained in query order. -/
theorem retained_top_k (E : Env F) (hsort : E.sort_by_first) (s : StructureFunction F)
    (max_points : Int) (points0 : Points F) (p2 : Point F) (lLocIndices0 : ivec)
    (lRhos0 : List (F × Nat))
    (hloop : lRhos0_loop E s points0 p2 lLocIndices0.enum = .ok lRhos0) :
    (∃ rhos, mapE (candidate_rho E s points0 p2) lLocIndices0 = .ok rhos ∧
      lRhos0 = ((rhos.enum.filter (fun e => decide (e.2 > 0))).map (fun e => (e.2, e.1)))) ∧
    (0 < max_points → (lRhos0.length : Int) > max_points →
      ∃ dropped kept, List.Perm (dropped ++ kept) lRhos0 ∧ kept.length = max_points.toNat ∧
        select_retained E max_points lLocIndices0 lRhos0
          = kept.map (fun e => (lLocIndices0.getD e.2 0, e.1)) ∧
        ∀ d ∈ dropped, ∀ e ∈ kept, d.1 ≤ e.1) ∧
    ((max_points = 0 ∨ (lRhos0.length : Int) ≤ max_points) →
      select_retained E max_points lLocIndices0 lRhos0
        = lRhos0.map (fun e => (lLocIndices0.getD e.2 0, e.1))) := by
  refine ⟨lRhos0_loop_spec E s points0 p2 lLocIndices0 0 lRhos0 hloop, ?_, ?_⟩
  · intro hpos hgt
    obtain ⟨hperm, hpw⟩ := hsort lRhos0
    have hlen : (E.sort lRhos0).length = lRhos0.length := hperm.length_eq
    have hk : max_points.toNat ≤ (E.sort lRhos0).length := by omega
    refine ⟨(E.sort lRhos0).take ((E.sort lRhos0).length - max_points.toNat),
      ((E.sort lRhos0).drop ((E.sort lRhos0).length - max_points.toNat)).reverse, ?_, ?_, ?_, ?_⟩
    · refine List.Perm.trans ?_ hperm
      refine List.Perm.trans (List.Perm.append_left _ (List.reverse_perm _)) ?_
      rw [List.take_append_drop]
    · simp only [List.length_reverse, List.length_drop]
      omega
    · unfold select_retained
      rw [if_pos ⟨hpos, hgt⟩]
      simp only
      rw [← top_suffix_eq (E.sort lRhos0) max_points.toNat hk (0, 0), List.map_map, hlen]
      rfl
    · intro d hd e he
      rw [List.mem_reverse] at he
      have := hpw
      rw [← List.take_append_drop ((E.sort lRhos0).length - max_points.toNat) (E.sort lRhos0),
        List.pairwise_append] at this
      exact this.2.2 d hd e he
  · intro h
    unfold select_retained
    rw [if_neg (by omega)]

/-! ### Two observations at one place -/

theorem solve_rows_pair (o1 y1 o2 y2 : F) :
    solve_rows [(⟨o1, y1, 1, 1, [1, 1]⟩ : LocalRow F), ⟨o2, y2, 1, 1, [1, 1]⟩]
      = .ok (((o1 - y1) + (o2 - y2)) / 3) := by
  unfold solve_rows arma_inv
  simp only [bind, Except.bind]
  have hdet : (Matrix.of (fun (i j : Fin [(⟨o1, y1, 1, 1, [1, 1]⟩ : LocalRow F),
        ⟨o2, y2, 1, 1, [1, 1]⟩].length) =>
        ([(⟨o1, y1, 1, 1, [1, 1]⟩ : LocalRow F), ⟨o2, y2, 1, 1, [1, 1]⟩].get i).lP.getD j.val 0) +
      Matrix.diagonal (fun i =>
        ([(⟨o1, y1, 1, 1, [1, 1]⟩ : LocalRow F), ⟨o2, y2, 1, 1, [1, 1]⟩].get i).lR)).det
      = 3 := by
    show Matrix.det (_ : Matrix (Fin 2) (Fin 2) F) = 3
    rw [Matrix.det_fin_two]
    simp
    norm_num
  rw [hdet, if_neg (by norm_num)]
  simp only [Except.ok.injEq]
  show Matrix.dotProduct (Matrix.vecMul _ ((3 : F)⁻¹ • Matrix.adjugate
    (_ : Matrix (Fin 2) (Fin 2) F))) _ = _
  rw [Matrix.adjugate_fin_two]
  simp [Matrix.vecMul, Matrix.dotProduct, Fin.sum_univ_two]
  ring

theorem enum_pair {α : Type} (a b : α) : [a, b].enum = [(0, a), (1, b)] := rfl

theorem assemble_pair (E : Env F) (s : StructureFunction F) (c : OISetup F)
    (k1 k2 : Nat) (g1 g2 o1 o2 r1 r2 y1 y2 c12 c21 : F) (q1 q2 : Point F)
    (hq1 : c.points0.get? k1 = some q1) (hq2 : c.points0.get? k2 = some q2)
    (h12 : s.corr E (Point.mk4 q1.lat q1.lon q1.elev q1.laf)
      (Point.mk4 q2.lat q2.lon q2.elev q2.laf) = .ok c12)
    (h21 : s.corr E (Point.mk4 q2.lat q2.lon q2.elev q2.laf)
      (Point.mk4 q1.lat q1.lon q1.elev q1.laf) = .ok c21)
    (ho1 : c.pobs0.get? k1 = some o1) (ho2 : c.pobs0.get? k2 = some o2)
    (hr1 : c.pratios0.get? k1 = some r1) (hr2 : c.pratios0.get? k2 = some r2)
    (hy1 : c.gY.get? k1 = some y1) (hy2 : c.gY.get? k2 = some y2) :
    mapE (assemble_row E s c [(k1, g1), (k2, g2)]) [(k1, g1), (k2, g2)].enum
      = .ok [⟨o1, y1, r1, g1, [1, c12]⟩, ⟨o2, y2, r2, g2, [c21, 1]⟩] := by
  rw [enum_pair]
  have hrow1 : assemble_row E s c [(k1, g1), (k2, g2)] (0, (k1, g1))
      = .ok ⟨o1, y1, r1, g1, [1, c12]⟩ := by
    simp only [assemble_row, enum_pair, read1_ok _ _ _ ho1, read1_ok _ _ _ hy1,
      read1_ok _ _ _ hr1, read1_ok _ _ _ hq1, read1_ok _ _ _ hq2, bind, Except.bind, mapE,
      if_true, Nat.zero_add, Nat.zero_ne_one, if_false, h12]
  have hrow2 : assemble_row E s c [(k1, g1), (k2, g2)] (1, (k2, g2))
      = .ok ⟨o2, y2, r2, g2, [c21, 1]⟩ := by
    simp only [assemble_row, enum_pair, read1_ok _ _ _ ho2, read1_ok _ _ _ hy2,
      read1_ok _ _ _ hr2, read1_ok _ _ _ hq1, read1_ok _ _ _ hq2, bind, Except.bind, mapE,
      if_true, Nat.zero_add, Nat.one_ne_zero, if_false, h21]
  simp only [mapE, hrow1, hrow2]

/-- C16 (counterexample): a one-cell grid with background 10 and two observations at the
gridpoint with `pobs = 11, 13`, `pratios = 1, 1`, `pbackground = 10, 10`; every
correlation is 1 and the analysis is `34/3`, not 12. -/
theorem optimal_interpolation_two_observations_counterexample :
    optimal_interpolation demoEnv demoGrid [[10]] [⟨0, 0, 0, 0, 0⟩, ⟨0, 0, 0, 0, 0⟩]
        [11, 13] [1, 1] [10, 10] demoCressman 0 = .ok [[34 / 3]] ∧
    retained_at demoEnv demoCressman 0
        ⟨[0, 1], [⟨0, 0, 0, 0, 0⟩, ⟨0, 0, 0, 0, 0⟩], [11, 13], [1, 1], 1, [10, 10]⟩ 0 0 0 0
      = .ok (some [(0, 1), (1, 1)]) ∧
    demoCressman.corr demoEnv ⟨0, 0, 0, 0, 0⟩ ⟨0, 0, 0, 0, 0⟩ = .ok 1 ∧
    (34 / 3 : ℚ) ≠ 12 := by
  refine ⟨by decide!, by decide!, by decide!, by decide!⟩

/-- The solve of lines 149-176 with two retained observations of correlation 1 to the
gridpoint and to each other, `pobs0 = 11, 13`, `pratios0 = 1, 1` and the model values
`gY[k1] = gY[k2] = 10` that line 161 reads at the domain-local indices. -/
theorem oi_gridpoint_two_coincident_rows (E : Env F) (bgrid : Grid F)
    (background : vec2 F) (points : Points F) (pobs pratios pbackground : vec F)
    (s : StructureFunction F) (max_points : Int) (c : OISetup F)
    (hc : oi_setup E bgrid points pobs pratios pbackground s = .ok c)
    (y x k1 k2 : Nat) (q1 q2 : Point F)
    (hret : retained_at E s max_points c (at2 bgrid.lats y x) (at2 bgrid.lons y x)
      (at2 bgrid.elevs y x) (at2 bgrid.lafs y x) = .ok (some [(k1, 1), (k2, 1)]))
    (hq1 : c.points0.get? k1 = some q1) (hq2 : c.points0.get? k2 = some q2)
    (h12 : s.corr E (Point.mk4 q1.lat q1.lon q1.elev q1.laf)
      (Point.mk4 q2.lat q2.lon q2.elev q2.laf) = .ok 1)
    (h21 : s.corr E (Point.mk4 q2.lat q2.lon q2.elev q2.laf)
      (Point.mk4 q1.lat q1.lon q1.elev q1.laf) = .ok 1)
    (ho1 : c.pobs0.get? k1 = some 11) (ho2 : c.pobs0.get? k2 = some 13)
    (hr1 : c.pratios0.get? k1 = some 1) (hr2 : c.pratios0.get? k2 = some 1)
    (hy1 : c.gY.get? k1 = some 10) (hy2 : c.gY.get? k2 = some 10)
    (hbg : at2 background y x = 10) :
    oi_gridpoint E bgrid background s max_points c y x = .ok (34 / 3) ∧
    (∀ out, optimal_interpolation E bgrid background points pobs pratios pbackground s
        max_points = .ok out →
      y < background.length → x < (background.getD 0 []).length →
      cell? out y x = some (34 / 3)) := by
  have hcell : oi_gridpoint E bgrid background s max_points c y x = .ok (34 / 3) := by
    unfold oi_gridpoint
    simp only [hret, List.length_cons, List.length_nil, Nat.reduceAdd, OfNat.ofNat_ne_zero,
      if_false,
      assemble_pair E s c k1 k2 1 1 11 13 1 1 10 10 1 1 q1 q2 hq1 hq2 h12 h21 ho1 ho2 hr1 hr2
        hy1 hy2,
      solve_rows_pair, hbg, Except.ok.injEq]
    norm_num
  refine ⟨hcell, ?_⟩
  intro out hout hy1 hx1
  obtain ⟨c1, v, hc1, hv, hcellout⟩ := oi_ok_cell E bgrid background points pobs pratios
    pbackground s max_points out hout y x hy1 hx1
  rw [hc] at hc1
  simp only [Except.ok.injEq] at hc1
  subst hc1
  rw [hcell] at hv
  simp only [Except.ok.injEq] at hv
  rw [hcellout, hv]

theorem get?_map_getD (v : vec F) (l : ivec) (k s : Nat) (a : F)
    (hk : l.get? k = some s) (hs : v.get? s = some a) :
    (l.map fun i => v.getD i 0).get? k = some a := by
  simp only [List.get?_eq_getElem?] at hk hs
  simp [List.getElem?_map, hk, List.getD_eq_getElem?_getD, hs]

/-- C16 (amended): at a gridpoint with background 10 whose retained observations are two
observations with correlation 1 to the gridpoint and to each other, which keep their
index under the domain filter (local index = index in the caller's ordering), with
`pobs = 11` and `13`, `pratios = 1` each and `pbackground = 10` each, the analysis is
`10 + 4/3 = 34/3`. -/
theorem optimal_interpolation_two_coincident_observations (E : Env F) (bgrid : Grid F)
    (background : vec2 F) (points : Points F) (pobs pratios pbackground : vec F)
    (s : StructureFunction F) (max_points : Int) (c : OISetup F)
    (hc : oi_setup E bgrid points pobs pratios pbackground s = .ok c)
    (y x k1 k2 : Nat) (q1 q2 : Point F)
    (hret : retained_at E s max_points c (at2 bgrid.lats y x) (at2 bgrid.lons y x)
      (at2 bgrid.elevs y x) (at2 bgrid.lafs y x) = .ok (some [(k1, 1), (k2, 1)]))
    (hi1 : (get_in_domain_indices E points bgrid).get? k1 = some k1)
    (hi2 : (get_in_domain_indices E points bgrid).get? k2 = some k2)
    (hq1 : (get_in_domain E points bgrid).get? k1 = some q1)
    (hq2 : (get_in_domain E points bgrid).get? k2 = some q2)
    (h12 : s.corr E (Point.mk4 q1.lat q1.lon q1.elev q1.laf)
      (Point.mk4 q2.lat q2.lon q2.elev q2.laf) = .ok 1)
    (h21 : s.corr E (Point.mk4 q2.lat q2.lon q2.elev q2.laf)
      (Point.mk4 q1.lat q1.lon q1.elev q1.laf) = .ok 1)
    (ho1 : pobs.get? k1 = some 11) (ho2 : pobs.get? k2 = some 13)
    (hr1 : pratios.get? k1 = some 1) (hr2 : pratios.get? k2 = some 1)
    (hy1 : pbackground.get? k1 = some 10) (hy2 : pbackground.get? k2 = some 10)
    (hbg : at2 background y x = 10) :
    oi_gridpoint E bgrid background s max_points c y x = .ok (34 / 3) ∧
    (∀ out, optimal_interpolation E bgrid background points pobs pratios pbackground s
        max_points = .ok out →
      y < background.length → x < (background.getD 0 []).length →
      cell? out y x = some (34 / 3)) := by
  obtain ⟨_, hp0, hpobs0, hpratios0, _, hgY⟩ :=
    oi_setup_ok E bgrid points pobs pratios pbackground s c hc
  exact oi_gridpoint_two_coincident_rows E bgrid background points pobs pratios pbackground s
    max_points c hc y x k1 k2 q1 q2 hret (by rw [hp0]; exact hq1) (by rw [hp0]; exact hq2)
    h12 h21
    (by rw [hpobs0]; exact get?_map_getD pobs _ k1 k1 11 hi1 ho1)
    (by rw [hpobs0]; exact get?_map_getD pobs _ k2 k2 13 hi2 ho2)
    (by rw [hpratios0]; exact get?_map_getD pratios _ k1 k1 1 hi1 hr1)
    (by rw [hpratios0]; exact get?_map_getD pratios _ k2 k2 1 hi2 hr2)
    (by rw [hgY]; exact hy1) (by rw [hgY]; exact hy2) hbg

/-- Witness for C16 (amended): two observations at the only gridpoint of a one-cell
grid, both inside the domain. -/
theorem optimal_interpolation_two_coincident_observations_witness :
    oi_gridpoint demoEnv demoGrid [[10]] demoCressman 0
        ⟨[0, 1], [⟨0, 0, 0, 0, 0⟩, ⟨0, 0, 0, 0, 0⟩], [11, 13], [1, 1], 1, [10, 10]⟩ 0 0
      = .ok (34 / 3) :=
  (optimal_interpolation_two_coincident_observations demoEnv demoGrid [[10]]
    [⟨0, 0, 0, 0, 0⟩, ⟨0, 0, 0, 0, 0⟩] [11, 13] [1, 1] [10, 10] demoCressman 0
    ⟨[0, 1], [⟨0, 0, 0, 0, 0⟩, ⟨0, 0, 0, 0, 0⟩], [11, 13], [1, 1], 1, [10, 10]⟩ (by decide!)
    0 0 0 1 ⟨0, 0, 0, 0, 0⟩ ⟨0, 0, 0, 0, 0⟩ (by decide!) (by decide!) (by decide!)
    (by decide!) (by decide!) (by decide!) (by decide!) (by decide!) (by decide!) (by decide!)
    (by decide!) (by decide!) (by decide!) (by decide!)).1

/-! ### The transform wrapper -/

theorem transform_field_identity (a : vec2 F) (nY nX : Nat)
    (h1 : nY ≤ a.length) (h2 : ∀ row ∈ a, nX ≤ row.length) :
    transform_field (fun v => v) nY nX a = .ok a := by
  unfold transform_field
  rw [if_pos ⟨h1, fun row hrow => h2 row (List.mem_of_mem_take hrow)⟩]
  simp only [ite_self, List.enum_map_snd]

theorem transform_points_identity (bsigma : F) (pobs psigma pbackground : vec F) (nS : Nat)
    (hpo : nS ≤ pobs.length) (hps : psigma.length = nS) (hpb : nS ≤ pbackground.length) :
    transform_points (fun v => v) bsigma nS pobs psigma pbackground
      = .ok (pbackground, pobs, psigma.map (fun sg => sg ^ 2 / bsigma ^ 2)) := by
  unfold transform_points
  rw [if_pos ⟨hpb, hpo, le_of_eq hps.symm⟩]
  simp only [ite_self, List.enum_map_snd, Except.ok.injEq, Prod.mk.injEq, true_and]
  apply List.ext_getElem
  · simp [hps]
  · intro i h3 h4
    have hi : i < psigma.length := by simpa using h4
    simp only [List.getElem_map, List.getElem_range, List.getD_eq_getElem?_getD,
      List.getElem?_eq_getElem hi, Option.getD_some]
    ring

theorem optimal_interpolation_shape (E : Env F) (bgrid : Grid F) (background : vec2 F)
    (points : Points F) (pobs pratios pbackground : vec F) (s : StructureFunction F)
    (max_points : Int) (out : vec2 F)
    (h : optimal_interpolation E bgrid background points pobs pratios pbackground s max_points
      = .ok out) :
    out.length = background.length ∧
      ∀ row ∈ out, row.length = (background.getD 0 []).length := by
  unfold optimal_interpolation at h
  split_ifs at h
  cases hc : oi_setup E bgrid points pobs pratios pbackground s with
  | error e => rw [hc] at h; simp at h
  | ok c =>
    rw [hc] at h
    simp only at h
    cases hm : mapE (fun (x : Nat) => mapE (fun (y : Nat) =>
        oi_gridpoint E bgrid background s max_points c y x) (List.range background.length))
        (List.range (background.getD 0 []).length) with
    | error e => rw [hm] at h; simp at h
    | ok cols =>
      rw [hm] at h
      simp only [Except.ok.injEq] at h
      subst h
      refine ⟨by simp, ?_⟩
      intro row hrow
      simp only [List.mem_map, List.mem_range] at hrow
      obtain ⟨y, _, rfl⟩ := hrow
      simp

/-- C15: for a rectangular background and vectors `pobs`, `psigma`, `pbackground` that
cover the points, `optimal_interpolation_transform` with the identity transform and
`bsigma ≠ 0` returns what `optimal_interpolation` returns on the same arguments with
`pratios[s] = psigma[s]^2 / bsigma^2`. -/
theorem optimal_interpolation_transform_identity (E : Env F) (bgrid : Grid F)
    (background : vec2 F) (bsigma : F) (points : Points F) (pobs psigma pbackground : vec F)
    (s : StructureFunction F) (max_points : Int) (nY nX : Nat)
    (hR : Rect background nY nX) (_hb : bsigma ≠ 0)
    (hpo : points.length ≤ pobs.length) (hps : psigma.length = points.length)
    (hpb : points.length ≤ pbackground.length) :
    optimal_interpolation_transform E bgrid background bsigma points pobs psigma pbackground
        s max_points (fun v => v) (fun v => v)
      = optimal_interpolation E bgrid background points pobs
          (psigma.map (fun sg => sg ^ 2 / bsigma ^ 2)) pbackground s max_points := by
  have hrows : ∀ row ∈ background, (background.getD 0 []).length ≤ row.length := by
    intro row hrow
    have hlen : 0 < nY := by
      rw [← hR.1]
      exact List.length_pos_of_mem hrow
    rw [Rect_row_length background nY nX 0 hR hlen, hR.2 row hrow]
  unfold optimal_interpolation_transform
  simp only [transform_field_identity background _ _ le_rfl hrows,
    transform_points_identity bsigma pobs psigma pbackground points.length hpo hps hpb]
  cases hoi : optimal_interpolation E bgrid background points pobs
      (psigma.map (fun sg => sg ^ 2 / bsigma ^ 2)) pbackground s max_points with
  | error e => rfl
  | ok out =>
    obtain ⟨h1, h2⟩ := optimal_interpolation_shape E bgrid background points pobs _
      pbackground s max_points out hoi
    simp only
    exact transform_field_identity out _ _ (le_of_eq h1.symm) (fun row hrow => le_of_eq (h2 row hrow).symm)

/-- Witness for C15: a one-cell grid, two observations, `psigma = 2, 2` and `bsigma = 2`;
both calls return `[[996/91]]`. -/
theorem optimal_interpolation_transform_identity_witness :
    optimal_interpolation_transform demoEnv demoGrid [[10]] 2
        [⟨0, 0, 0, 0, 0⟩, ⟨0, 1 / 2, 0, 0, 0⟩] [11, 13] [2, 2] [10, 10] demoCressman 0
        (fun v => v) (fun v => v)
      = optimal_interpolation demoEnv demoGrid [[10]] [⟨0, 0, 0, 0, 0⟩, ⟨0, 1 / 2, 0, 0, 0⟩]
          [11, 13] (([2, 2] : vec ℚ).map (fun sg => sg ^ 2 / (2 : ℚ) ^ 2)) [10, 10]
          demoCressman 0 ∧
    optimal_interpolation_transform demoEnv demoGrid [[10]] 2
        [⟨0, 0, 0, 0, 0⟩, ⟨0, 1 / 2, 0, 0, 0⟩] [11, 13] [2, 2] [10, 10] demoCressman 0
        (fun v => v) (fun v => v) = .ok [[996 / 91]] :=
  ⟨optimal_interpolation_transform_identity demoEnv demoGrid [[10]] 2
    [⟨0, 0, 0, 0, 0⟩, ⟨0, 1 / 2, 0, 0, 0⟩] [11, 13] [2, 2] [10, 10] demoCressman 0 1 1
    ⟨rfl, by decide⟩ (by decide) (by decide) (by decide) (by decide), by decide!⟩

theorem demoEnv_sort_by_first : demoEnv.sort_by_first := by
  intro l
  haveI : IsTotal (ℚ × Nat) (fun a b => a.1 ≤ b.1) := ⟨fun a b => le_total a.1 b.1⟩
  haveI : IsTrans (ℚ × Nat) (fun a b => a.1 ≤ b.1) := ⟨fun a b c h1 h2 => le_trans h1 h2⟩
  exact ⟨List.perm_insertionSort _ l, List.sorted_insertionSort _ l⟩

/-- Witness for C19: three observations around the gridpoint with correlations `3/5`, `1`
and `15/17`, and `max_points = 2`. -/
theorem retained_top_k_witness :
    ∃ dropped kept, List.Perm (dropped ++ kept) [((3 / 5 : ℚ), 0), (1, 1), (15 / 17, 2)] ∧
      kept.length = (2 : Int).toNat ∧
      select_retained demoEnv 2 [0, 1, 2] [((3 / 5 : ℚ), 0), (1, 1), (15 / 17, 2)]
        = kept.map (fun e => (([0, 1, 2] : ivec).getD e.2 0, e.1)) ∧
      ∀ d ∈ dropped, ∀ e ∈ kept, d.1 ≤ e.1 :=
  (retained_top_k demoEnv demoEnv_sort_by_first demoCressman 2
    [⟨0, 1 / 2, 0, 0, 0⟩, ⟨0, 0, 0, 0, 0⟩, ⟨0, 1 / 4, 0, 0, 0⟩] ⟨0, 0, 0, 0, 0⟩ [0, 1, 2]
    [((3 / 5 : ℚ), 0), (1, 1), (15 / 17, 2)] (by decide!)).2.1 (by decide) (by decide)

/-! ### Independence of `search_target_max` -/

/-- C21: for all `A`, `S`, `halfwidth`, `c_min`, `c_max`, `t_min` and any two values of
`search_target_max` that are both `≥ t_min`, the two calls of `calc_neighbourhood` end
the same way: with the same field, or with the same error. -/
theorem calc_neighbourhood_target_max_irrelevant (A S : vec2 F) (hw : Int)
    (cmin cmax tmin tmax1 tmax2 : F) (h1 : tmin ≤ tmax1) (h2 : tmin ≤ tmax2) :
    calc_neighbourhood A S hw cmin cmax tmin tmax1
      = calc_neighbourhood A S hw cmin cmax tmin tmax2 := by
  unfold calc_neighbourhood
  rw [if_neg (not_lt.mpr h1), if_neg (not_lt.mpr h2)]

/-- Witness for C21: scenario 4 of the spec with `t_max = 10` and `t_max = 7`; both
calls return `[[4, 4], [4, 4]]`. -/
theorem calc_neighbourhood_target_max_irrelevant_witness :
    calc_neighbourhood (F := ℚ) [[1, 2], [3, 4]] [[1, 2], [3, 4]] 1 0 10 0 10
      = calc_neighbourhood (F := ℚ) [[1, 2], [3, 4]] [[1, 2], [3, 4]] 1 0 10 0 7 ∧
    calc_neighbourhood (F := ℚ) [[1, 2], [3, 4]] [[1, 2], [3, 4]] 1 0 10 0 7
      = .ok [[4, 4], [4, 4]] :=
  ⟨calc_neighbourhood_target_max_irrelevant (F := ℚ) [[1, 2], [3, 4]] [[1, 2], [3, 4]] 1
    0 10 0 10 7 (by decide) (by decide), by decide!⟩

/-! ### `MultipleStructure(B, B, B)` for a scalar Barnes structure `B` -/

theorem barnes_new_nonneg (E : Env F) (h v w hmax : F) (s : StructureFunction F)
    (hs : BarnesStructure.new E h v w hmax = .ok s) : 0 ≤ h := by
  by_contra hneg
  have hbad : ∃ msg, BarnesStructure.new E h v w hmax = .error (.invalid_argument msg) :=
    (barnes_new_error_iff E h v w hmax).2 (Or.inl (Or.inr (not_le.mp hneg)))
  obtain ⟨msg, hmsg⟩ := hbad
  rw [hs] at hmsg
  exact absurd hmsg (by simp)

theorem barnes_scalar_clone (E : Env F) (g : Grid F) (h v w mr : F) :
    (StructureFunction.barnes g [[h]] [[v]] [[w]] mr false).clone E
      = .ok (.barnes g [[h]] [[v]] [[w]] mr false) := by
  simp [StructureFunction.clone, BarnesStructure.newSpatial]

theorem barnes_scalar_localization (E : Env F) (g : Grid F) (h v w mr : F) (p : Point F) :
    (StructureFunction.barnes g [[h]] [[v]] [[w]] mr false).localization_distance E p
      = .ok (E.sqrt (-2 * E.log mr) * h) := by
  simp only [StructureFunction.localization_distance, Bool.false_eq_true, if_false,
    read2_singleton, bind, Except.bind]

theorem barnes_scalar_corr_eq (E : Env F) (g : Grid F) (h v w mr : F) (p1 p2 : Point F) :
    (StructureFunction.barnes g [[h]] [[v]] [[w]] mr false).corr E p1 p2
      = .ok (if E.calc_distance_fast p1 p2 > E.sqrt (-2 * E.log mr) * h then 0
          else barnes_product E (E.calc_distance_fast p1 p2) h v w p1 p2) := by
  simp only [StructureFunction.corr, barnes_scalar_localization, bind, Except.bind,
    Bool.false_eq_true, if_false, read2_singleton]
  split_ifs <;> rfl

theorem barnes_rho_zero_dist (E : Env F) (hexp : E.exp 0 = 1) (length : F) :
    barnes_rho E 0 length = 1 := by
  unfold barnes_rho
  have h0 : is_valid (0 : F) = true := is_valid_of_nonneg 0 le_rfl
  split_ifs with h1 h2
  · rfl
  · simp [h0] at h2
  · simp [hexp]

/-- C22: for a scalar Barnes structure `B` built by its constructor, a distance that
depends on latitude and longitude only and is 0 for equal coordinates, and `libm`
functions with `exp(0) = 1` and `sqrt ≥ 0`: `MultipleStructure(B, B, B)` is built, and
its `corr` and `localization_distance` are those of `B` at all points. -/
theorem multiple_of_one_barnes (E : Env F) (hdep : E.distance_horizontal)
    (hzero : E.distance_zero_on_equal) (hexp : E.exp 0 = 1) (hsqrt : ∀ x, 0 ≤ E.sqrt x)
    (h v w hmax : F) (B : StructureFunction F)
    (hB : BarnesStructure.new E h v w hmax = .ok B) :
    ∃ M, MultipleStructure.new E B B B = .ok M ∧
      ∀ p1 p2 : Point F, M.corr E p1 p2 = B.corr E p1 p2 ∧
        M.localization_distance E p1 = B.localization_distance E p1 := by
  have hh : 0 ≤ h := barnes_new_nonneg E h v w hmax B hB
  obtain ⟨mr, rfl⟩ := barnes_new_shape E h v w hmax B hB
  refine ⟨.multiple (.barnes ⟨[], [], [], []⟩ [[h]] [[v]] [[w]] mr false)
    (.barnes ⟨[], [], [], []⟩ [[h]] [[v]] [[w]] mr false)
    (.barnes ⟨[], [], [], []⟩ [[h]] [[v]] [[w]] mr false), ?_, ?_⟩
  · simp only [MultipleStructure.new, barnes_scalar_clone, bind, Except.bind]
  · intro p1 p2
    refine ⟨?_, rfl⟩
    have hloc : 0 ≤ E.sqrt (-2 * E.log mr) * h := mul_nonneg (hsqrt _) hh
    have hd1 : E.calc_distance_fast ⟨p1.lat, p1.lon, p1.elev, p1.laf, p1.type⟩
        ⟨p2.lat, p2.lon, p1.elev, p1.laf, p1.type⟩ = E.calc_distance_fast p1 p2 :=
      hdep _ _ _ _ rfl rfl rfl rfl
    have hd2 : E.calc_distance_fast ⟨p1.lat, p1.lon, p1.elev, p1.laf, p1.type⟩
        ⟨p1.lat, p1.lon, p2.elev, p1.laf, p1.type⟩ = 0 := hzero _ _ rfl rfl
    have hd3 : E.calc_distance_fast ⟨p1.lat, p1.lon, p1.elev, p1.laf, p1.type⟩
        ⟨p1.lat, p1.lon, p1.elev, p2.laf, p1.type⟩ = 0 := hzero _ _ rfl rfl
    have hnot : ¬ (0 : F) > E.sqrt (-2 * E.log mr) * h := not_lt.mpr hloc
    simp only [StructureFunction.corr, barnes_scalar_localization, bind, Except.bind,
      Bool.false_eq_true, if_false, read2_singleton, hd1, hd2, hd3, hnot]
    by_cases hgt : E.calc_distance_fast p1 p2 > E.sqrt (-2 * E.log mr) * h
    · simp only [hgt, if_true, zero_mul]
    · simp only [hgt, if_false, barnes_product, sub_self, barnes_rho_zero_dist E hexp,
        mul_one, one_mul, ite_self, Bool.and_self]
      by_cases he1 : is_valid p1.elev = true <;> by_cases he2 : is_valid p2.elev = true <;>
        by_cases hl1 : is_valid p1.laf = true <;> by_cases hl2 : is_valid p2.laf = true <;>
        simp [he1, he2, hl1, hl2, mul_assoc]

theorem demoEnvSqrt_distance_horizontal : demoEnvSqrt.distance_horizontal := by
  intro p q p1 q1 h1 h2 h3 h4
  simp only [demoEnvSqrt, demoEnv, h1, h2, h3, h4]

theorem demoEnvSqrt_distance_zero_on_equal : demoEnvSqrt.distance_zero_on_equal := by
  intro p q h1 h2
  simp only [demoEnvSqrt, demoEnv, h1, h2, sub_self, abs_zero, add_zero]

/-- Witness for C22: `B = BarnesStructure(1, 1, 0, 1)`. -/
theorem multiple_of_one_barnes_witness :
    ∃ M, MultipleStructure.new demoEnvSqrt
        (.barnes ⟨[], [], [], []⟩ [[1]] [[1]] [[0]] (2 / 3) false)
        (.barnes ⟨[], [], [], []⟩ [[1]] [[1]] [[0]] (2 / 3) false)
        (.barnes ⟨[], [], [], []⟩ [[1]] [[1]] [[0]] (2 / 3) false) = .ok M ∧
      ∀ p1 p2 : Point ℚ,
        M.corr demoEnvSqrt p1 p2 =
          (StructureFunction.barnes ⟨[], [], [], []⟩ [[1]] [[1]] [[0]] (2 / 3) false).corr
            demoEnvSqrt p1 p2 ∧
        M.localization_distance demoEnvSqrt p1 =
          (StructureFunction.barnes ⟨[], [], [], []⟩ [[1]] [[1]] [[0]] (2 / 3) false
            ).localization_distance demoEnvSqrt p1 :=
  multiple_of_one_barnes demoEnvSqrt demoEnvSqrt_distance_horizontal
    demoEnvSqrt_distance_zero_on_equal (by decide!) (fun x => le_max_right x 0)
    1 1 0 1 _ (by decide!)

/-! ### Localization distance of a scalar Barnes structure with `hmax` -/

theorem barnes_new_hmax_shape (E : Env F) (h v w hmax : F) (s : StructureFunction F)
    (hv : is_valid hmax = true) (hs : BarnesStructure.new E h v w hmax = .ok s) :
    s = .barnes ⟨[], [], [], []⟩ [[h]] [[v]] [[w]] (E.exp ((hmax / h) ^ 2 / (-2))) false := by
  unfold BarnesStructure.new at hs
  split_ifs at hs
  simp only [hv, if_true, Except.ok.injEq] at hs
  exact hs.symm

/-- C23: over the real numbers, with `exp`, `log` and `sqrt` the real functions, every
scalar Barnes structure constructed with `h > 0` and a valid `hmax ≥ 0` has
`localization_distance(p) = hmax` at every point `p`. -/
theorem barnes_localization_distance_eq_hmax (E : Env ℝ) (hexp : E.exp = Real.exp)
    (hlog : E.log = Real.log) (hsqrt : E.sqrt = Real.sqrt) (h v w hmax : ℝ)
    (hh : 0 < h) (hv : is_valid hmax = true) (hm : 0 ≤ hmax) (B : StructureFunction ℝ)
    (hB : BarnesStructure.new E h v w hmax = .ok B) (p : Point ℝ) :
    B.localization_distance E p = .ok hmax := by
  rw [barnes_new_hmax_shape E h v w hmax B hv hB, barnes_scalar_localization, hexp, hlog,
    hsqrt, Real.log_exp]
  have h1 : -2 * ((hmax / h) ^ 2 / (-2)) = (hmax / h) ^ 2 := by ring
  rw [h1, Real.sqrt_sq (div_nonneg hm (le_of_lt hh)), div_mul_cancel₀ hmax (ne_of_gt hh)]

/-- Witness for C23: `BarnesStructure(2, 1, 1, 3)` with the real `exp`, `log`, `sqrt`. -/
theorem barnes_localization_distance_eq_hmax_witness :
    (StructureFunction.barnes ⟨[], [], [], []⟩ [[2]] [[1]] [[1]]
        (Real.exp (((3 : ℝ) / 2) ^ 2 / (-2))) false).localization_distance
      (libmEnv Real.exp Real.log Real.sqrt) ⟨0, 0, 0, 0, 0⟩ = .ok 3 :=
  barnes_localization_distance_eq_hmax (libmEnv Real.exp Real.log Real.sqrt) rfl rfl rfl
    2 1 1 3 (by norm_num) (is_valid_of_nonneg 3 (by norm_num)) (by norm_num) _
    (by
      have h2 : is_valid (2 : ℝ) = true := is_valid_of_nonneg 2 (by norm_num)
      have h1 : is_valid (1 : ℝ) = true := is_valid_of_nonneg 1 (by norm_num)
      have h3 : is_valid (3 : ℝ) = true := is_valid_of_nonneg 3 (by norm_num)
      norm_num [BarnesStructure.new, libmEnv, h1, h2, h3])
    ⟨0, 0, 0, 0, 0⟩

end
end gridpp
